import Mathlib

/-!
Verification development for the report-rpa channel-aggregation core.

The Python source is embedded shallowly:
* floats are modelled as rationals (`ℚ`), Python ints as `ℤ`;
* `None` becomes `Option.none`; a pandas `NaN` cell is likewise `none`
  (`fillna(0)` is `Option.getD 0`, and arithmetic on a `NaN` cell
  propagates `none`);
* Python exceptions (`AttributeError`, `KeyError`, pydantic
  `ValidationError`) become an explicit `Except PyError` result;
* `round(x, 2)` is 2-decimal rounding with ties to even, as CPython
  documents for floats with an exactly representable tie.

Every definition is translated from the repository source files
(`src/models/data_schema.py`, `src/transformation/calculator.py`,
`src/transformation/channel_aggregator.py`,
`src/transformation/core_business_calculator.py`,
`src/transformation/fiscal_calculator.py`,
`src/ingestion/get_monthly_targets.py`); the source file and line
ranges are cited on each definition.
-/

/-- Floor of a rational. -/
def ratFloor (q : ℚ) : ℤ :=
  ⌊q⌋

/-- Truncation toward zero, the behaviour of Python `int()` on a float. -/
def pyInt (q : ℚ) : ℤ :=
  if 0 ≤ q then ⌊q⌋ else ⌈q⌉

/-- Round to the nearest integer with ties to even, the behaviour of
Python `round` at a representable tie. -/
def roundHalfEven (q : ℚ) : ℤ :=
  let f := ratFloor q
  let r := q - (f : ℚ)
  if r < 1/2 then f
  else if 1/2 < r then f + 1
  else if f % 2 = 0 then f else f + 1

/-- Python `round(x, 2)`. -/
def pyRound2 (q : ℚ) : ℚ :=
  (roundHalfEven (100 * q) : ℚ) / 100

/-- Truthiness of an optional float in Python: `None` and `0.0` are falsy. -/
def qTruthy : Option ℚ → Bool
  | none => false
  | some q => decide (q ≠ 0)

/-- Truthiness of an optional int in Python: `None` and `0` are falsy. -/
def zTruthy : Option ℤ → Bool
  | none => false
  | some z => decide (z ≠ 0)

/-- Channel enum, data_schema.py lines 124-145.  The enum defines exactly
these six members; in particular there is no `DTC_EXCL_FF`,
`DTC_EXCL_FF_SC` or `CORE_BUSINESS` member. -/
inductive ChannelType where
  | PFS
  | DTC
  | WBTQ
  | OFS
  | TOTAL
  | TMALL
deriving DecidableEq, Repr

/-- Python attribute lookup `ChannelType.<name>`: `some` member for the six
defined names, `none` (an `AttributeError` at the access site) otherwise. -/
def ChannelType.attr : String → Option ChannelType
  | "PFS" => some .PFS
  | "DTC" => some .DTC
  | "WBTQ" => some .WBTQ
  | "OFS" => some .OFS
  | "TOTAL" => some .TOTAL
  | "TMALL" => some .TMALL
  | _ => none

/-- The exceptions the embedded code can raise.  A pydantic
`ValidationError` collects every violated field; the model carries the
first violated field in declaration order, which suffices because the
theorems only distinguish which exception is raised. -/
inductive PyError where
  | attributeError (name : String)
  | keyError (name : String)
  | validationError (field : String)
deriving DecidableEq, Repr

/-- Evaluation of the attribute access `ChannelType.<name>` as an
`Except`: raises `AttributeError` for a missing member. -/
def pyChannelAttr (name : String) : Except PyError ChannelType :=
  match ChannelType.attr name with
  | some c => .ok c
  | none => .error (.attributeError name)

/-! ## MetricCalculator (src/transformation/calculator.py lines 21-243) -/

/-- calculator.py lines 27-52, `MetricCalculator.calculate_yoy`. -/
def MetricCalculator.calculate_yoy (current_value last_year_value : Option ℚ) :
    Option ℚ :=
  match current_value, last_year_value with
  | some c, some l =>
      if l = 0 then
        if c = 0 then some 0 else none
      else
        some (pyRound2 ((c - l) / l * 100))
  | _, _ => none

/-- calculator.py lines 54-78, `MetricCalculator.calculate_mom`. -/
def MetricCalculator.calculate_mom (current_value last_month_value : Option ℚ) :
    Option ℚ :=
  match current_value, last_month_value with
  | some c, some l =>
      if l = 0 then
        if c = 0 then some 0 else none
      else
        some (pyRound2 ((c - l) / l * 100))
  | _, _ => none

/-- calculator.py lines 80-96, `MetricCalculator.calculate_cr`. -/
def MetricCalculator.calculate_cr (buyers uv : Option ℤ) : Option ℚ :=
  match buyers, uv with
  | some b, some u =>
      if u = 0 then none else some (pyRound2 ((b : ℚ) / (u : ℚ) * 100))
  | _, _ => none

/-- calculator.py lines 98-114, `MetricCalculator.calculate_aov`. -/
def MetricCalculator.calculate_aov (gmv : Option ℚ) (orders : Option ℤ) :
    Option ℚ :=
  match gmv, orders with
  | some g, some o =>
      if o = 0 then none else some (pyRound2 (g / (o : ℚ)))
  | _, _ => none

/-- calculator.py lines 116-132, `MetricCalculator.calculate_atv`. -/
def MetricCalculator.calculate_atv (gmv : Option ℚ) (buyers : Option ℤ) :
    Option ℚ :=
  match gmv, buyers with
  | some g, some b =>
      if b = 0 then none else some (pyRound2 (g / (b : ℚ)))
  | _, _ => none

/-- calculator.py lines 134-150, `MetricCalculator.calculate_aur`. -/
def MetricCalculator.calculate_aur (gmv : Option ℚ) (gmv_units : Option ℤ) :
    Option ℚ :=
  match gmv, gmv_units with
  | some g, some u =>
      if u = 0 then none else some (pyRound2 (g / (u : ℚ)))
  | _, _ => none

/-- calculator.py lines 152-174, `MetricCalculator.calculate_rrc`. -/
def MetricCalculator.calculate_rrc (return_amount cancel_amount gmv : Option ℚ) :
    Option ℚ :=
  match return_amount, cancel_amount, gmv with
  | some r, some c, some g =>
      if g = 0 then none else some (pyRound2 ((r + c) / g * 100))
  | _, _, _ => none

/-- calculator.py lines 176-195, `MetricCalculator.calculate_cancel_rate`. -/
def MetricCalculator.calculate_cancel_rate (cancel_amount gmv : Option ℚ) :
    Option ℚ :=
  match cancel_amount, gmv with
  | some c, some g =>
      if g = 0 then none else some (pyRound2 (c / g * 100))
  | _, _ => none

/-- calculator.py lines 197-216, `MetricCalculator.calculate_return_rate`. -/
def MetricCalculator.calculate_return_rate (return_amount gmv : Option ℚ) :
    Option ℚ :=
  match return_amount, gmv with
  | some r, some g =>
      if g = 0 then none else some (pyRound2 (r / g * 100))
  | _, _ => none

/-- calculator.py lines 218-243, `MetricCalculator.calculate_rrc_after_cancel`. -/
def MetricCalculator.calculate_rrc_after_cancel
    (return_amount gmv cancel_amount : Option ℚ) : Option ℚ :=
  match return_amount, gmv, cancel_amount with
  | some r, some g, some c =>
      if g - c = 0 then none else some (pyRound2 (r / (g - c) * 100))
  | _, _, _ => none

/-! ## MonthlyMetrics (src/models/data_schema.py lines 313-391)

A pydantic model.  Fields carry the `Field` constraints shown in the
source; constructing an instance that violates one of them, or omitting a
required field, raises a `ValidationError`.  The comparison fields
`ly_gmv`/`ly_net`/`ly_uv`/`yoy_growth`/`mom_growth` carry no constraint.
Assignment to a field of an existing instance is not re-validated
(pydantic default, `validate_assignment` unset), so the source's
post-construction mutations are plain structure updates. -/

structure MonthlyMetrics where
  year : ℤ
  month : ℤ
  channel : ChannelType
  gmv : ℚ
  net : ℚ
  uv : ℤ
  buyers : ℤ
  orders : Option ℤ := none
  gmv_units : Option ℤ := none
  aov : ℚ
  atv : Option ℚ := none
  aur : Option ℚ := none
  cr : ℚ
  paid_traffic : ℤ
  non_paid_traffic : ℤ
  free_traffic : ℤ
  cancel_amount : Option ℚ := none
  return_amount : Option ℚ := none
  total_refund_amount : Option ℚ := none
  cancel_rate : Option ℚ := none
  return_rate : Option ℚ := none
  rrc : Option ℚ := none
  rrc_after_cancel : Option ℚ := none
  ly_gmv : Option ℚ := none
  ly_net : Option ℚ := none
  ly_uv : Option ℤ := none
  yoy_growth : Option ℚ := none
  mom_growth : Option ℚ := none
deriving DecidableEq, Repr

/-- Helper: the violation list contributed by one checked condition. -/
def violation (bad : Prop) [Decidable bad] (field : String) : List String :=
  if bad then [field] else []

/-- Violated-field list of a `MonthlyMetrics` instance, in field
declaration order, following the `Field(ge=..., le=...)` bounds of
data_schema.py lines 318-344. -/
def MonthlyMetrics.invalids (m : MonthlyMetrics) : List String :=
  violation (m.month < 1 ∨ 12 < m.month) "month" ++
  violation (m.gmv < 0) "gmv" ++
  violation (m.net < 0) "net" ++
  violation (m.uv < 0) "uv" ++
  violation (m.buyers < 0) "buyers" ++
  violation (∃ o ∈ m.orders, o < 0) "orders" ++
  violation (∃ u ∈ m.gmv_units, u < 0) "gmv_units" ++
  violation (m.aov < 0) "aov" ++
  violation (∃ v ∈ m.atv, v < 0) "atv" ++
  violation (∃ v ∈ m.aur, v < 0) "aur" ++
  violation (m.cr < 0 ∨ 100 < m.cr) "cr" ++
  violation (m.paid_traffic < 0) "paid_traffic" ++
  violation (m.non_paid_traffic < 0) "non_paid_traffic" ++
  violation (m.free_traffic < 0) "free_traffic" ++
  violation (∃ v ∈ m.cancel_amount, v < 0) "cancel_amount" ++
  violation (∃ v ∈ m.return_amount, v < 0) "return_amount" ++
  violation (∃ v ∈ m.total_refund_amount, v < 0) "total_refund_amount" ++
  violation (∃ v ∈ m.cancel_rate, v < 0 ∨ 100 < v) "cancel_rate" ++
  violation (∃ v ∈ m.return_rate, v < 0 ∨ 100 < v) "return_rate" ++
  violation (∃ v ∈ m.rrc, v < 0 ∨ 100 < v) "rrc" ++
  violation (∃ v ∈ m.rrc_after_cancel, v < 0 ∨ 100 < v) "rrc_after_cancel"

/-- Pydantic validation at construction: the instance when every field
constraint holds, otherwise a `ValidationError` naming a violated field. -/
def MonthlyMetrics.validate (m : MonthlyMetrics) : Except PyError MonthlyMetrics :=
  match m.invalids with
  | [] => .ok m
  | f :: _ => .error (.validationError f)

/-- Construction call `MonthlyMetrics(...)`.  `non_paid_traffic` is a
required field of the model; call sites that omit it (the
`DataAggregator` aggregations in calculator.py pass no
`non_paid_traffic=` keyword) pass `none` here, which pydantic rejects as
a missing required field. -/
def mkMonthlyMetrics (year month : ℤ) (channel : ChannelType) (gmv net : ℚ)
    (uv buyers : ℤ) (orders gmv_units : Option ℤ) (aov : ℚ) (atv aur : Option ℚ)
    (cr : ℚ) (paid_traffic : ℤ) (non_paid_traffic_arg : Option ℤ)
    (free_traffic : ℤ)
    (cancel_amount return_amount total_refund_amount : Option ℚ)
    (cancel_rate return_rate rrc rrc_after_cancel : Option ℚ) :
    Except PyError MonthlyMetrics :=
  match non_paid_traffic_arg with
  | none => .error (.validationError "non_paid_traffic")
  | some npt =>
      MonthlyMetrics.validate
        { year := year, month := month, channel := channel, gmv := gmv,
          net := net, uv := uv, buyers := buyers, orders := orders,
          gmv_units := gmv_units, aov := aov, atv := atv, aur := aur,
          cr := cr, paid_traffic := paid_traffic, non_paid_traffic := npt,
          free_traffic := free_traffic, cancel_amount := cancel_amount,
          return_amount := return_amount,
          total_refund_amount := total_refund_amount,
          cancel_rate := cancel_rate, return_rate := return_rate,
          rrc := rrc, rrc_after_cancel := rrc_after_cancel }

/-- The raw-counter part of the pydantic constraints: what a validly
constructed aggregate guarantees about the fields that the composer
functions read and sum.  (The ratio-range constraints are not needed by
the composers: they always pass freshly computed ratio literals.) -/
def MonthlyMetrics.Valid (m : MonthlyMetrics) : Prop :=
  1 ≤ m.month ∧ m.month ≤ 12 ∧ 0 ≤ m.gmv ∧ 0 ≤ m.net ∧ 0 ≤ m.uv ∧
  0 ≤ m.buyers ∧ (∀ o ∈ m.orders, 0 ≤ o) ∧ 0 ≤ m.paid_traffic ∧
  0 ≤ m.non_paid_traffic ∧ 0 ≤ m.free_traffic ∧
  (∀ v ∈ m.cancel_amount, 0 ≤ v) ∧ (∀ v ∈ m.return_amount, 0 ≤ v)

/-! ## TargetMetric (src/models/data_schema.py lines 162-216)

Daily record.  All numeric fields are optional; they are modelled
uniformly as `Option ℚ` (the integer-typed ones hold integral values and
the aggregators cast their sums with `int()` anyway, modelled by
`pyInt`).  The fields `rrc`, `rrc_after_cancel`, `upt`, `cr`, `aov`,
`atv`, `aur`, `total_refund_amount`, `cancel_rate`, `return_rate`,
`dtc_social_rrc`, `dtc_ad_rrc` and `dtc_organic_rrc` exist on the model
but are never read by the aggregation functions studied here, so they are
omitted from the structure while still being listed as DataFrame columns
below.  Crucially, the model defines no `dtc_ff_net`, `dtc_ff_gmv` or
`dtc_ff_traffic` field (pydantic v2 silently drops unknown keyword
arguments), so the DataFrame built from `m.dict()` has no such columns. -/

structure TargetMetric where
  dateYear : ℤ
  dateMonth : ℤ
  dateDay : ℤ
  channel : ChannelType
  gmv : Option ℚ := none
  net : Option ℚ := none
  net_units : Option ℚ := none
  gmv_units : Option ℚ := none
  uv : Option ℚ := none
  buyers : Option ℚ := none
  orders : Option ℚ := none
  free_traffic : Option ℚ := none
  paid_traffic : Option ℚ := none
  cancel_amount : Option ℚ := none
  return_amount : Option ℚ := none
  dtc_social_net : Option ℚ := none
  dtc_social_gmv : Option ℚ := none
  dtc_social_traffic : Option ℚ := none
  dtc_ad_net : Option ℚ := none
  dtc_ad_gmv : Option ℚ := none
  dtc_ad_traffic : Option ℚ := none
  dtc_ad_spend : Option ℚ := none
  dtc_organic_net : Option ℚ := none
  dtc_organic_gmv : Option ℚ := none
  dtc_organic_traffic : Option ℚ := none
deriving DecidableEq, Repr

/-- Columns of the DataFrame built from `[m.dict() for m in daily_metrics]`
plus the added `year`/`month` columns: exactly the `TargetMetric` field
names.  There is no `dtc_ff_net`/`dtc_ff_gmv`/`dtc_ff_traffic` column and
no `non_paid_traffic` column. -/
def targetMetricColumns : List String :=
  ["date", "channel", "gmv", "net", "net_units", "gmv_units", "rrc",
   "rrc_after_cancel", "upt", "uv", "cr", "aov", "atv", "aur", "buyers",
   "orders", "free_traffic", "paid_traffic", "cancel_amount",
   "return_amount", "total_refund_amount", "cancel_rate", "return_rate",
   "dtc_social_net", "dtc_social_gmv", "dtc_social_rrc",
   "dtc_social_traffic", "dtc_ad_net", "dtc_ad_gmv", "dtc_ad_rrc",
   "dtc_ad_traffic", "dtc_ad_spend", "dtc_organic_net", "dtc_organic_gmv",
   "dtc_organic_rrc", "dtc_organic_traffic", "year", "month"]

/-- Sum of a column over the filtered rows after `fillna(0)`:
`monthly_df[c].fillna(0).sum()` for a column `c` that is statically
present on the frame. -/
def sumq (rows : List TargetMetric) (f : TargetMetric → Option ℚ) : ℚ :=
  rows.foldl (fun a m => a + (f m).getD 0) 0

/-- Pandas column access followed by `fillna(0).sum()` for a column named
at run time: raises `KeyError` when the column does not exist on the
`TargetMetric` frame.  The embedded functions only reach the summing
branch for actual columns, so the value function covers those. -/
def dfSumCol (rows : List TargetMetric) (col : String) : Except PyError ℚ :=
  if targetMetricColumns.contains col then
    .ok (sumq rows (fun m =>
      match col with
      | "gmv" => m.gmv
      | "net" => m.net
      | "uv" => m.uv
      | "buyers" => m.buyers
      | "orders" => m.orders
      | "dtc_social_net" => m.dtc_social_net
      | "dtc_social_gmv" => m.dtc_social_gmv
      | "dtc_social_traffic" => m.dtc_social_traffic
      | _ => none))
  else .error (.keyError col)

/-- Row filter for `(df['year'] == year) & (df['month'] == month) &
(df['channel'] == channel_str)`. -/
def filterMonth (daily : List TargetMetric) (year month : ℤ)
    (channel : ChannelType) : List TargetMetric :=
  daily.filter (fun m =>
    decide (m.dateYear = year ∧ m.dateMonth = month ∧ m.channel = channel))

/-- Shared helper for
`(cancel_amount or 0) + (return_amount or 0) if cancel_amount is not None
and return_amount is not None else None`. -/
def totalRefundIfPresent (c r : Option ℚ) : Option ℚ :=
  match c, r with
  | some a, some b => some (a + b)
  | _, _ => none

/-- Shared helper for the truthiness-guarded variant
`(cancel_amount or 0) + (return_amount or 0) if cancel_amount and
return_amount else None`. -/
def totalRefundIfTruthy (c r : Option ℚ) : Option ℚ :=
  if qTruthy c && qTruthy r then some (c.getD 0 + r.getD 0) else none

/-- Merge of two optional float counters: the sum when both are present
(`if a is not None and b is not None`), else `None`. -/
def optAdd (a b : Option ℚ) : Option ℚ :=
  match a, b with
  | some x, some y => some (x + y)
  | _, _ => none

/-- Merge of two optional int counters. -/
def optAddZ (a b : Option ℤ) : Option ℤ :=
  match a, b with
  | some x, some y => some (x + y)
  | _, _ => none

/-! ## DataAggregator (src/transformation/calculator.py lines 246-356) -/

/-- The conversion rate computed in `DataAggregator.aggregate_monthly`
(calculator.py line 315): the `None` returned by `calculate_cr` for
`uv == 0` is coerced to `0.0` by `or 0.0`. -/
def DataAggregator.aggCr (buyers uv : ℤ) : ℚ :=
  (MetricCalculator.calculate_cr (some buyers) (some uv)).getD 0

/-- calculator.py lines 269-356, `DataAggregator.aggregate_monthly`.
Filters the month/channel selection, sums each counter with missing
values as zero, derives the ratios, and constructs a `MonthlyMetrics`.
The construction (lines 333-356) passes no `non_paid_traffic=` keyword
although the field is required, hence the `none` argument in that
position. -/
def DataAggregator.aggregate_monthly (daily : List TargetMetric)
    (year month : ℤ) (channel : ChannelType) :
    Except PyError (Option MonthlyMetrics) :=
  if daily = [] then .ok none
  else
    let monthly := filterMonth daily year month channel
    if monthly = [] then .ok none
    else
      let gmv := sumq monthly (fun m => m.gmv)
      let net := sumq monthly (fun m => m.net)
      let uv := pyInt (sumq monthly (fun m => m.uv))
      let buyers := pyInt (sumq monthly (fun m => m.buyers))
      let paid_traffic := pyInt (sumq monthly (fun m => m.paid_traffic))
      let free_traffic := pyInt (sumq monthly (fun m => m.free_traffic))
      let orders := if targetMetricColumns.contains "orders" then
          some (pyInt (sumq monthly (fun m => m.orders))) else none
      let gmv_units := if targetMetricColumns.contains "gmv_units" then
          some (pyInt (sumq monthly (fun m => m.gmv_units))) else none
      let aov := if zTruthy orders then
          (MetricCalculator.calculate_aov (some gmv) orders).getD 0 else 0
      let atv := MetricCalculator.calculate_atv (some gmv) (some buyers)
      let aur := MetricCalculator.calculate_aur (some gmv) gmv_units
      let cr := DataAggregator.aggCr buyers uv
      let cancel_amount := if targetMetricColumns.contains "cancel_amount" then
          some (sumq monthly (fun m => m.cancel_amount)) else none
      let return_amount := if targetMetricColumns.contains "return_amount" then
          some (sumq monthly (fun m => m.return_amount)) else none
      let doRates := cancel_amount.isSome && return_amount.isSome &&
          decide (0 < gmv)
      let rrc := if doRates then
          MetricCalculator.calculate_rrc return_amount cancel_amount (some gmv)
        else none
      let cancel_rate := if doRates then
          MetricCalculator.calculate_cancel_rate cancel_amount (some gmv)
        else none
      let return_rate_val := if doRates then
          MetricCalculator.calculate_return_rate return_amount (some gmv)
        else none
      let rrc_after_cancel_val := if doRates then
          MetricCalculator.calculate_rrc_after_cancel return_amount (some gmv)
            cancel_amount
        else none
      (mkMonthlyMetrics year month channel gmv net uv buyers orders gmv_units
        aov atv aur cr paid_traffic none free_traffic cancel_amount
        return_amount (totalRefundIfPresent cancel_amount return_amount)
        cancel_rate return_rate_val rrc rrc_after_cancel_val).map some

/-! ## CoreBusinessCalculator (src/transformation/core_business_calculator.py) -/

/-- Exclusion configuration dictionary,
core_business_calculator.py lines 307-312. -/
structure ExclusionConfig where
  exclude_ff : Bool
  exclude_social : Bool
deriving DecidableEq, Repr

/-- Broadcast subtraction of scalar totals from the `net`, `gmv` and `uv`
columns of a row (`monthly_df['net'] = monthly_df['net'] - ff_net` etc.);
a `NaN` cell stays `NaN`. -/
def TargetMetric.subCounters (m : TargetMetric) (dNet dGmv dUv : ℚ) :
    TargetMetric :=
  { m with net := m.net.map (fun v => v - dNet),
           gmv := m.gmv.map (fun v => v - dGmv),
           uv := m.uv.map (fun v => v - dUv) }

/-- The summing-and-construction block of
`CoreBusinessCalculator.aggregate_monthly_with_exclusion`
(core_business_calculator.py lines 355-425), applied to the
(possibly mutated) selected rows `monthly1` and the already resolved
result channel.  The UV sum is floored at zero
(`int(max(0, monthly_df['uv'].fillna(0).sum()))`); no other counter is
clamped.  `monthly_df.get('non_paid_traffic', pd.Series())` falls back to
an empty series because the column does not exist, so that sum is `0`. -/
def aggExclCore (year month : ℤ) (result_channel : ChannelType)
    (monthly1 : List TargetMetric) : Except PyError MonthlyMetrics :=
  let gmv := sumq monthly1 (fun m => m.gmv)
  let net := sumq monthly1 (fun m => m.net)
  let uv := pyInt (max 0 (sumq monthly1 (fun m => m.uv)))
  let buyers := pyInt (sumq monthly1 (fun m => m.buyers))
  let paid_traffic := pyInt (sumq monthly1 (fun m => m.paid_traffic))
  let free_traffic := pyInt (sumq monthly1 (fun m => m.free_traffic))
  let non_paid_traffic : ℤ := 0
  let orders := if targetMetricColumns.contains "orders" then
      some (pyInt (sumq monthly1 (fun m => m.orders))) else none
  let gmv_units := if targetMetricColumns.contains "gmv_units" then
      some (pyInt (sumq monthly1 (fun m => m.gmv_units))) else none
  let aov := if zTruthy orders then
      (MetricCalculator.calculate_aov (some gmv) orders).getD 0 else 0
  let atv := MetricCalculator.calculate_atv (some gmv) (some buyers)
  let aur := MetricCalculator.calculate_aur (some gmv) gmv_units
  let cr := (MetricCalculator.calculate_cr (some buyers) (some uv)).getD 0
  let cancel_amount := if targetMetricColumns.contains "cancel_amount" then
      some (sumq monthly1 (fun m => m.cancel_amount)) else none
  let return_amount := if targetMetricColumns.contains "return_amount" then
      some (sumq monthly1 (fun m => m.return_amount)) else none
  let doRates := cancel_amount.isSome && return_amount.isSome &&
      decide (0 < gmv)
  let rrc := if doRates then
      MetricCalculator.calculate_rrc return_amount cancel_amount (some gmv)
    else none
  let cancel_rate := if doRates then
      MetricCalculator.calculate_cancel_rate cancel_amount (some gmv)
    else none
  let return_rate_val := if doRates then
      MetricCalculator.calculate_return_rate return_amount (some gmv)
    else none
  let rrc_after_cancel_val := if doRates then
      MetricCalculator.calculate_rrc_after_cancel return_amount (some gmv)
        cancel_amount
    else none
  mkMonthlyMetrics year month result_channel gmv net uv buyers orders
    gmv_units aov atv aur cr paid_traffic (some non_paid_traffic)
    free_traffic cancel_amount return_amount
    (totalRefundIfPresent cancel_amount return_amount)
    cancel_rate return_rate_val rrc rrc_after_cancel_val

/-- core_business_calculator.py lines 268-425,
`CoreBusinessCalculator.aggregate_monthly_with_exclusion`.
The FF branch reads the columns `dtc_ff_net`/`dtc_ff_gmv`/`dtc_ff_traffic`,
which do not exist on a `TargetMetric` frame (`dfSumCol` raises
`KeyError`).  The result channel for a DTC aggregation with exclusions is
looked up as `ChannelType.DTC_EXCL_FF_SC` / `ChannelType.DTC_EXCL_FF`,
members the enum does not define.  The summing-and-construction tail is
`aggExclCore` above. -/
def CoreBusinessCalculator.aggregate_monthly_with_exclusion
    (daily : List TargetMetric) (year month : ℤ) (channel : ChannelType)
    (cfg : ExclusionConfig) : Except PyError (Option MonthlyMetrics) :=
  if daily = [] then .ok none
  else
    let monthly := filterMonth daily year month channel
    if monthly = [] then .ok none
    else do
      let monthly1 ←
        if channel = ChannelType.DTC ∧ (cfg.exclude_ff ∨ cfg.exclude_social) then do
          let monthlyA ←
            if cfg.exclude_ff then do
              let ff_net ← dfSumCol monthly "dtc_ff_net"
              let ff_gmv ← dfSumCol monthly "dtc_ff_gmv"
              let ff_uv ← dfSumCol monthly "dtc_ff_traffic"
              pure (monthly.map (fun m => m.subCounters ff_net ff_gmv ff_uv))
            else pure monthly
          if cfg.exclude_social then do
            let sc_net := sumq monthlyA (fun m => m.dtc_social_net)
            let sc_gmv := sumq monthlyA (fun m => m.dtc_social_gmv)
            let sc_uv := sumq monthlyA (fun m => m.dtc_social_traffic)
            pure (monthlyA.map (fun m => m.subCounters sc_net sc_gmv sc_uv))
          else pure monthlyA
        else pure monthly
      let result_channel ←
        if channel = ChannelType.DTC then
          if cfg.exclude_ff ∧ cfg.exclude_social then
            pyChannelAttr "DTC_EXCL_FF_SC"
          else if cfg.exclude_ff then
            pyChannelAttr "DTC_EXCL_FF"
          else pure channel
        else pure channel
      (aggExclCore year month result_channel monthly1).map some

/-- core_business_calculator.py lines 49-97,
`CoreBusinessCalculator.calculate_dtc_excl_ff`: copies the DTC aggregate
into a new `MonthlyMetrics` tagged `ChannelType.DTC_EXCL_FF` — a member
the enum does not define, so the keyword-argument evaluation raises
`AttributeError`. -/
def CoreBusinessCalculator.calculate_dtc_excl_ff
    (dtc_metric : Option MonthlyMetrics) :
    Except PyError (Option MonthlyMetrics) :=
  match dtc_metric with
  | none => .ok none
  | some d => do
      let ch ← pyChannelAttr "DTC_EXCL_FF"
      let m ← MonthlyMetrics.validate
        { year := d.year, month := d.month, channel := ch, gmv := d.gmv,
          net := d.net, uv := d.uv, buyers := d.buyers, orders := d.orders,
          gmv_units := d.gmv_units, aov := d.aov, atv := d.atv,
          aur := d.aur, cr := d.cr, paid_traffic := d.paid_traffic,
          free_traffic := d.free_traffic,
          non_paid_traffic := d.non_paid_traffic,
          cancel_amount := d.cancel_amount, return_amount := d.return_amount,
          total_refund_amount := d.total_refund_amount,
          cancel_rate := d.cancel_rate, return_rate := d.return_rate,
          rrc := d.rrc, rrc_after_cancel := d.rrc_after_cancel }
      .ok (some m)

/-- core_business_calculator.py lines 99-147,
`CoreBusinessCalculator.calculate_dtc_excl_ff_sc`: identical copy tagged
`ChannelType.DTC_EXCL_FF_SC`, also not an enum member. -/
def CoreBusinessCalculator.calculate_dtc_excl_ff_sc
    (dtc_metric : Option MonthlyMetrics) :
    Except PyError (Option MonthlyMetrics) :=
  match dtc_metric with
  | none => .ok none
  | some d => do
      let ch ← pyChannelAttr "DTC_EXCL_FF_SC"
      let m ← MonthlyMetrics.validate
        { year := d.year, month := d.month, channel := ch, gmv := d.gmv,
          net := d.net, uv := d.uv, buyers := d.buyers, orders := d.orders,
          gmv_units := d.gmv_units, aov := d.aov, atv := d.atv,
          aur := d.aur, cr := d.cr, paid_traffic := d.paid_traffic,
          free_traffic := d.free_traffic,
          non_paid_traffic := d.non_paid_traffic,
          cancel_amount := d.cancel_amount, return_amount := d.return_amount,
          total_refund_amount := d.total_refund_amount,
          cancel_rate := d.cancel_rate, return_rate := d.return_rate,
          rrc := d.rrc, rrc_after_cancel := d.rrc_after_cancel }
      .ok (some m)

/-- core_business_calculator.py lines 149-266,
`CoreBusinessCalculator.calculate_core_business`: `None` on a missing
input or a period mismatch; otherwise sums the raw counters and tags the
result `ChannelType.CORE_BUSINESS` — not an enum member, so the
construction raises `AttributeError` before the metric exists. -/
def CoreBusinessCalculator.calculate_core_business
    (pfs_metric dtc_excl_ff_sc_metric : Option MonthlyMetrics) :
    Except PyError (Option MonthlyMetrics) :=
  match pfs_metric, dtc_excl_ff_sc_metric with
  | some p, some d =>
      if p.year ≠ d.year ∨ p.month ≠ d.month then .ok none
      else
        let gmv := p.gmv + d.gmv
        let net := p.net + d.net
        let uv := p.uv + d.uv
        let buyers := p.buyers + d.buyers
        let paid_traffic := p.paid_traffic + d.paid_traffic
        let free_traffic := p.free_traffic + d.free_traffic
        let non_paid_traffic := p.non_paid_traffic + d.non_paid_traffic
        let orders := optAddZ p.orders d.orders
        let gmv_units := optAddZ p.gmv_units d.gmv_units
        let cancel_amount := optAdd p.cancel_amount d.cancel_amount
        let return_amount := optAdd p.return_amount d.return_amount
        do
          let ch ← pyChannelAttr "CORE_BUSINESS"
          let core ← MonthlyMetrics.validate
            { year := p.year, month := p.month, channel := ch, gmv := gmv,
              net := net, uv := uv, buyers := buyers, orders := orders,
              gmv_units := gmv_units, aov := 0, atv := none, aur := none,
              cr := 0, paid_traffic := paid_traffic,
              free_traffic := free_traffic,
              non_paid_traffic := non_paid_traffic,
              cancel_amount := cancel_amount, return_amount := return_amount,
              total_refund_amount := totalRefundIfTruthy cancel_amount
                return_amount,
              cancel_rate := none, return_rate := none, rrc := none,
              rrc_after_cancel := none }
          let core := if zTruthy orders ∧ 0 < orders.getD 0 then
              { core with aov := core.gmv / ((orders.getD 0 : ℤ) : ℚ) }
            else core
          let core := if buyers ≠ 0 ∧ 0 < buyers then
              { core with atv := some (core.gmv / (buyers : ℚ)) }
            else core
          let core := if zTruthy gmv_units ∧ 0 < gmv_units.getD 0 then
              { core with aur := some (core.gmv / ((gmv_units.getD 0 : ℤ) : ℚ)) }
            else core
          let core := if uv ≠ 0 ∧ 0 < uv then
              { core with cr := ((buyers : ℚ) / (uv : ℚ)) * 100 }
            else core
          let core := if qTruthy cancel_amount ∧ qTruthy return_amount ∧ 0 < gmv then
              { core with
                cancel_rate := MetricCalculator.calculate_cancel_rate
                  cancel_amount (some gmv),
                return_rate := MetricCalculator.calculate_return_rate
                  return_amount (some gmv),
                rrc := MetricCalculator.calculate_rrc return_amount
                  cancel_amount (some gmv),
                rrc_after_cancel := MetricCalculator.calculate_rrc_after_cancel
                  return_amount (some gmv) cancel_amount }
            else core
          .ok (some core)
  | _, _ => .ok none

/-! ## ChannelAggregator (src/transformation/channel_aggregator.py) -/

/-- The ratio re-derivation block that follows the TOTAL/DTC construction
(channel_aggregator.py lines 82-107 and 176-201): post-construction
mutations of `aov`, `atv`, `cr` and the refund-rate family, applied
without re-validation.  The source applies the four guarded mutations in
sequence; every guard reads only fields the block never writes (`orders`,
`buyers`, `uv`, `gmv` and the two amounts), so the sequence is written
here as one simultaneous update. -/
def reDeriveRatios (cancel_amount return_amount : Option ℚ)
    (m0 : MonthlyMetrics) : MonthlyMetrics :=
  { m0 with
    aov := if zTruthy m0.orders ∧ 0 < m0.orders.getD 0 then
        m0.gmv / ((m0.orders.getD 0 : ℤ) : ℚ)
      else m0.aov,
    atv := if m0.buyers ≠ 0 ∧ 0 < m0.buyers then
        some (m0.gmv / (m0.buyers : ℚ))
      else m0.atv,
    cr := if m0.uv ≠ 0 ∧ 0 < m0.uv then
        ((m0.buyers : ℚ) / (m0.uv : ℚ)) * 100
      else m0.cr,
    cancel_rate := if qTruthy cancel_amount ∧ qTruthy return_amount ∧
        0 < m0.gmv then
        MetricCalculator.calculate_cancel_rate cancel_amount (some m0.gmv)
      else m0.cancel_rate,
    return_rate := if qTruthy cancel_amount ∧ qTruthy return_amount ∧
        0 < m0.gmv then
        MetricCalculator.calculate_return_rate return_amount (some m0.gmv)
      else m0.return_rate,
    rrc := if qTruthy cancel_amount ∧ qTruthy return_amount ∧
        0 < m0.gmv then
        MetricCalculator.calculate_rrc return_amount cancel_amount
          (some m0.gmv)
      else m0.rrc,
    rrc_after_cancel := if qTruthy cancel_amount ∧ qTruthy return_amount ∧
        0 < m0.gmv then
        MetricCalculator.calculate_rrc_after_cancel return_amount
          (some m0.gmv) cancel_amount
      else m0.rrc_after_cancel }

/-- The summed aggregate constructed by `calculate_total_channel` /
`calculate_dtc_channel` before validation (channel_aggregator.py lines
39-80 and 133-174): raw counters summed, ratio fields reset, refund
amounts merged only when both children carry them. -/
def composeSums (tag : ChannelType) (p d : MonthlyMetrics) : MonthlyMetrics :=
  { year := p.year, month := p.month, channel := tag,
    gmv := p.gmv + d.gmv, net := p.net + d.net, uv := p.uv + d.uv,
    buyers := p.buyers + d.buyers, orders := optAddZ p.orders d.orders,
    aov := 0, atv := none, cr := 0,
    paid_traffic := p.paid_traffic + d.paid_traffic,
    free_traffic := p.free_traffic + d.free_traffic,
    non_paid_traffic := p.non_paid_traffic + d.non_paid_traffic,
    cancel_amount := optAdd p.cancel_amount d.cancel_amount,
    return_amount := optAdd p.return_amount d.return_amount,
    total_refund_amount := totalRefundIfTruthy
      (optAdd p.cancel_amount d.cancel_amount)
      (optAdd p.return_amount d.return_amount),
    cancel_rate := none, return_rate := none, rrc := none,
    rrc_after_cancel := none }

/-- Common body of `calculate_total_channel` (channel_aggregator.py lines
16-108) and `calculate_dtc_channel` (lines 110-202): the two methods are
identical up to the channel tag of the result.  `None` on a missing
input or a period mismatch; otherwise the summed aggregate, constructed
through pydantic validation and with the ratios recomputed from the
summed counters. -/
def composeTwoChannels (tag : ChannelType)
    (x_metric y_metric : Option MonthlyMetrics) :
    Except PyError (Option MonthlyMetrics) :=
  match x_metric, y_metric with
  | some p, some d =>
      if p.year ≠ d.year ∨ p.month ≠ d.month then .ok none
      else
        (MonthlyMetrics.validate (composeSums tag p d)).map
          (fun t => some (reDeriveRatios
            (optAdd p.cancel_amount d.cancel_amount)
            (optAdd p.return_amount d.return_amount) t))
  | _, _ => .ok none

/-- channel_aggregator.py lines 16-108,
`ChannelAggregator.calculate_total_channel`: TOTAL = PFS + DTC. -/
def ChannelAggregator.calculate_total_channel
    (pfs_metric dtc_metric : Option MonthlyMetrics) :
    Except PyError (Option MonthlyMetrics) :=
  composeTwoChannels ChannelType.TOTAL pfs_metric dtc_metric

/-- channel_aggregator.py lines 110-202,
`ChannelAggregator.calculate_dtc_channel`: DTC = WBTQ + OFS. -/
def ChannelAggregator.calculate_dtc_channel
    (wbtq_metric ofs_metric : Option MonthlyMetrics) :
    Except PyError (Option MonthlyMetrics) :=
  composeTwoChannels ChannelType.DTC wbtq_metric ofs_metric

/-- The dict `channels_by_type` built by iterating the input list: the
last aggregate wins for each channel. -/
def channelsOf (ms : List MonthlyMetrics) : ChannelType → Option MonthlyMetrics :=
  ms.foldl (fun f m => fun c => if c = m.channel then some m else f c)
    (fun _ => none)

/-- Dict update `result[c] = m`. -/
def updateChannel (f : ChannelType → Option MonthlyMetrics) (c : ChannelType)
    (m : MonthlyMetrics) : ChannelType → Option MonthlyMetrics :=
  fun c2 => if c2 = c then some m else f c2

/-- channel_aggregator.py lines 204-242,
`ChannelAggregator.calculate_channel_breakdown`: organises the input by
channel, composes DTC from WBTQ+OFS whenever both are present (storing it
under the DTC key), then TOTAL from PFS and the (possibly just composed)
DTC entry whenever both are present. -/
def ChannelAggregator.calculate_channel_breakdown
    (monthly_metrics : List MonthlyMetrics) :
    Except PyError (ChannelType → Option MonthlyMetrics) := do
  let channels_by_type := channelsOf monthly_metrics
  let result := channels_by_type
  let result ←
    match channels_by_type ChannelType.WBTQ, channels_by_type ChannelType.OFS with
    | some w, some o => do
        let dtc ← ChannelAggregator.calculate_dtc_channel (some w) (some o)
        match dtc with
        | some dv => pure (updateChannel result ChannelType.DTC dv)
        | none => pure result
    | _, _ => pure result
  match channels_by_type ChannelType.PFS, result ChannelType.DTC with
  | some p, some d => do
      let total ← ChannelAggregator.calculate_total_channel (some p) (some d)
      match total with
      | some tv => pure (updateChannel result ChannelType.TOTAL tv)
      | none => pure result
  | _, _ => pure result

/-! ## FiscalYear (src/models/data_schema.py lines 13-121) and
`_get_fy_start_date` (src/ingestion/get_monthly_targets.py lines 19-39) -/

/-- A Python `datetime.date`. -/
structure PyDate where
  year : ℤ
  month : ℤ
  day : ℤ
deriving DecidableEq, Repr

/-- data_schema.py lines 25-49, `FiscalYear.get_fiscal_year`: April and
later belong to the next year's fiscal year. -/
def FiscalYear.get_fiscal_year (date_value : PyDate) : ℤ :=
  if 4 ≤ date_value.month then date_value.year + 1 else date_value.year

/-- data_schema.py lines 62-79, `FiscalYear.get_fiscal_quarter`:
months 4-6 are Q1, 7-9 Q2, 10-12 Q3, anything else (1-3) Q4. -/
def FiscalYear.get_fiscal_quarter (date_value : PyDate) : ℤ :=
  if 4 ≤ date_value.month ∧ date_value.month ≤ 6 then 1
  else if 7 ≤ date_value.month ∧ date_value.month ≤ 9 then 2
  else if 10 ≤ date_value.month ∧ date_value.month ≤ 12 then 3
  else 4

/-- get_monthly_targets.py lines 19-39, `_get_fy_start_date`. -/
def getFyStartDate (current_year current_month : ℤ) : PyDate :=
  if 4 ≤ current_month then ⟨current_year, 4, 1⟩
  else ⟨current_year - 1, 4, 1⟩

/-- data_schema.py lines 358-363, `MonthlyMetrics.fiscal_year`. -/
def MonthlyMetrics.fiscal_year (m : MonthlyMetrics) : ℤ :=
  FiscalYear.get_fiscal_year ⟨m.year, m.month, 1⟩

/-- data_schema.py lines 371-374, `MonthlyMetrics.fiscal_month`: the
natural calendar month. -/
def MonthlyMetrics.fiscal_month (m : MonthlyMetrics) : ℤ :=
  m.month

/-- fiscal_calculator.py lines 44-47: the `fiscal_year` column added to
the daily frame. -/
def TargetMetric.fiscal_year (m : TargetMetric) : ℤ :=
  FiscalYear.get_fiscal_year ⟨m.dateYear, m.dateMonth, m.dateDay⟩

/-! ## FiscalYearAggregator (src/transformation/fiscal_calculator.py) -/

/-- The summing-and-construction block of
`FiscalYearAggregator.aggregate_fiscal_year_monthly`
(fiscal_calculator.py lines 93-126), applied to the selected rows.  The
frame has no `non_paid_traffic` column, so the `elif` branch sums
`free_traffic` instead (the first branch is statically dead). -/
def fiscalAggCore (cal_year cal_month : ℤ) (channel : ChannelType)
    (monthly : List TargetMetric) : Except PyError MonthlyMetrics :=
  let gmv := sumq monthly (fun m => m.gmv)
  let net := sumq monthly (fun m => m.net)
  let uv := pyInt (sumq monthly (fun m => m.uv))
  let buyers := pyInt (sumq monthly (fun m => m.buyers))
  let non_paid_traffic :=
    if targetMetricColumns.contains "non_paid_traffic" then 0
    else pyInt (sumq monthly (fun m => m.free_traffic))
  let paid_traffic := pyInt (sumq monthly (fun m => m.paid_traffic))
  let free_traffic := pyInt (sumq monthly (fun m => m.free_traffic))
  let aov := if 0 < buyers then net / (buyers : ℚ) else 0
  let cr := if 0 < uv then ((buyers : ℚ) / (uv : ℚ)) * 100 else 0
  mkMonthlyMetrics cal_year cal_month channel gmv net uv buyers none none
    aov none none cr paid_traffic (some non_paid_traffic) free_traffic
    none none none none none none none

/-- fiscal_calculator.py lines 51-126,
`FiscalYearAggregator.aggregate_fiscal_year_monthly`: maps the fiscal
(year, month) to the calendar (year, month) — months ≥ 4 belong to
calendar year `fiscal_year - 1` — then aggregates that calendar month
through `fiscalAggCore`. -/
def FiscalYearAggregator.aggregate_fiscal_year_monthly
    (daily : List TargetMetric) (fiscal_year fiscal_month : ℤ)
    (channel : ChannelType) : Except PyError (Option MonthlyMetrics) :=
  if daily = [] then .ok none
  else
    let cal_year := if 4 ≤ fiscal_month then fiscal_year - 1 else fiscal_year
    let cal_month := fiscal_month
    let monthly := filterMonth daily cal_year cal_month channel
    if monthly = [] then .ok none
    else
      (fiscalAggCore cal_year cal_month channel monthly).map some

/-- The integer list produced by `range(1, through_fiscal_month + 1)`. -/
def fmRange (through_fiscal_month : ℤ) : List ℤ :=
  (List.range through_fiscal_month.toNat).map (fun i => (i : ℤ) + 1)

/-- The maximum of the `fiscal_month` column over a nonempty selection
(`channel_df['fiscal_month'].max()`). -/
def maxFiscalMonth (rows : List TargetMetric) : ℤ :=
  rows.foldl (fun a m => max a m.dateMonth) 0

/-- fiscal_calculator.py lines 128-198,
`FiscalYearAggregator.calculate_fiscal_ytd`: aggregates fiscal months
`1, 2, ..., through_fiscal_month` of the fiscal year (the loop starts at
1, not at the fiscal-year start month), keeps the non-`None` monthly
aggregates, and sums their counters; the last collected month supplies
the (year, month) marker. -/
def FiscalYearAggregator.calculate_fiscal_ytd (daily : List TargetMetric)
    (fiscal_year : ℤ) (channel : ChannelType)
    (through_fiscal_month? : Option ℤ) :
    Except PyError (Option MonthlyMetrics) :=
  if daily = [] then .ok none
  else
    let through? :=
      match through_fiscal_month? with
      | some t => some t
      | none =>
          let channel_df := daily.filter (fun (m : TargetMetric) =>
            decide (m.fiscal_year = fiscal_year ∧ m.channel = channel))
          if channel_df = [] then none
          else some (maxFiscalMonth channel_df)
    match through? with
    | none => .ok none
    | some through => do
        let collected : List MonthlyMetrics ← (fmRange through).foldlM
          (fun acc fm => do
            let r ← FiscalYearAggregator.aggregate_fiscal_year_monthly daily
              fiscal_year fm channel
            pure (match r with
              | some m => acc ++ [m]
              | none => acc))
          ([] : List MonthlyMetrics)
        match collected.getLast? with
        | none => .ok none
        | some last =>
            let gmv := (collected.map (fun m => m.gmv)).sum
            let net := (collected.map (fun m => m.net)).sum
            let uv : ℤ := (collected.map (fun m => m.uv)).sum
            let buyers : ℤ := (collected.map (fun m => m.buyers)).sum
            let paid_traffic : ℤ := (collected.map (fun m => m.paid_traffic)).sum
            let non_paid_traffic : ℤ :=
              (collected.map (fun m => m.non_paid_traffic)).sum
            let free_traffic : ℤ := (collected.map (fun m => m.free_traffic)).sum
            let aov := if 0 < buyers then net / (buyers : ℚ) else 0
            let cr := if 0 < uv then ((buyers : ℚ) / (uv : ℚ)) * 100 else 0
            (mkMonthlyMetrics last.year last.month channel gmv net uv buyers
              none none aov none none cr paid_traffic (some non_paid_traffic)
              free_traffic none none none none none none none).map some

/-- fiscal_calculator.py lines 247-274,
`FiscalYearAggregator.calculate_fiscal_yoy`: looks up the first aggregate
of the pool with the same channel at (fiscal year − 1, same fiscal
month); when found, returns the unrounded growth ratio if the prior net
is positive and `None` otherwise; `None` when nothing matches. -/
def FiscalYearAggregator.calculate_fiscal_yoy (current_metric : MonthlyMetrics)
    (all_metrics : List MonthlyMetrics) : Option ℚ :=
  let last_fiscal_year := current_metric.fiscal_year - 1
  let last_fiscal_month := current_metric.fiscal_month
  match all_metrics.find? (fun m =>
      decide (m.fiscal_year = last_fiscal_year ∧
        m.fiscal_month = last_fiscal_month ∧
        m.channel = current_metric.channel)) with
  | some m =>
      if 0 < m.net then
        some ((current_metric.net - m.net) / m.net * 100)
      else none
  | none => none

/-! ## Cross-source merge (src/ingestion/get_monthly_targets.py lines 225-298)

`_merge_and_calculate` receives the database monthly-summary frame
(columns year, month, channel, gmv, net, net_units, gmv_units, uv,
buyers, free_traffic, paid_traffic, days — all present) and the optional
Excel FF frame from `_read_ff_from_excel` (always columns year, month,
channel, gmv, net, source; uv, buyers, gmv_units, net_units only when the
spreadsheet supplied them; `_read_ff_from_excel` returns `None` rather
than an empty frame).  After `pd.concat` the merged frame carries the
union of the columns with `NaN` in the cells a source did not provide;
`NaN` is modelled as `none` and propagates through arithmetic. -/

/-- A database monthly-summary row. -/
structure DbRow where
  year : ℤ
  month : ℤ
  channel : String
  gmv : ℚ
  net : ℚ
  net_units : ℚ
  gmv_units : ℚ
  uv : ℚ
  buyers : ℚ
  free_traffic : ℚ
  paid_traffic : ℚ
  days : ℚ
  source : String := "database"
deriving DecidableEq, Repr

/-- The single FF target row produced by `_read_ff_from_excel`: `gmv` and
`net` are always present; the remaining counters are columns only when
the spreadsheet supplied them (`none` here means the column is absent, so
that a direct `df_ff.iloc[0][c]` access raises `KeyError`). -/
structure FfRow where
  year : ℤ
  month : ℤ
  channel : String := "DTC_FF"
  gmv : ℚ
  net : ℚ
  uv : Option ℚ := none
  buyers : Option ℚ := none
  gmv_units : Option ℚ := none
  net_units : Option ℚ := none
  source : String := "excel"
deriving DecidableEq, Repr

/-- Column access `df_ff.iloc[0][col]` on the FF frame: `KeyError` when
the column is absent. -/
def FfRow.get (f : FfRow) (col : String) : Except PyError ℚ :=
  match col with
  | "gmv" => .ok f.gmv
  | "net" => .ok f.net
  | "uv" => match f.uv with
    | some v => .ok v
    | none => .error (.keyError "uv")
  | "buyers" => match f.buyers with
    | some v => .ok v
    | none => .error (.keyError "buyers")
  | "gmv_units" => match f.gmv_units with
    | some v => .ok v
    | none => .error (.keyError "gmv_units")
  | "net_units" => match f.net_units with
    | some v => .ok v
    | none => .error (.keyError "net_units")
  | c => .error (.keyError c)

/-- A row of the concatenated frame: every column of the union, `none`
marking a `NaN` cell. -/
structure MergedRow where
  year : ℤ
  month : ℤ
  channel : String
  gmv : Option ℚ
  net : Option ℚ
  net_units : Option ℚ
  gmv_units : Option ℚ
  uv : Option ℚ
  buyers : Option ℚ
  free_traffic : Option ℚ
  paid_traffic : Option ℚ
  days : Option ℚ
  source : String
deriving DecidableEq, Repr

/-- Lift of a database row into the concatenated frame. -/
def DbRow.toMerged (r : DbRow) : MergedRow :=
  { year := r.year, month := r.month, channel := r.channel,
    gmv := some r.gmv, net := some r.net, net_units := some r.net_units,
    gmv_units := some r.gmv_units, uv := some r.uv, buyers := some r.buyers,
    free_traffic := some r.free_traffic, paid_traffic := some r.paid_traffic,
    days := some r.days, source := r.source }

/-- Lift of the FF row into the concatenated frame: the columns the FF
frame lacks become `NaN`. -/
def FfRow.toMerged (f : FfRow) : MergedRow :=
  { year := f.year, month := f.month, channel := f.channel,
    gmv := some f.gmv, net := some f.net, net_units := f.net_units,
    gmv_units := f.gmv_units, uv := f.uv, buyers := f.buyers,
    free_traffic := none, paid_traffic := none, days := none,
    source := f.source }

/-- NaN-propagating subtraction of a scalar. -/
def nsubScalar (a : Option ℚ) (b : ℚ) : Option ℚ :=
  a.map (fun v => v - b)

/-- NaN-propagating addition of two cells. -/
def nadd (a b : Option ℚ) : Option ℚ :=
  match a, b with
  | some x, some y => some (x + y)
  | _, _ => none

/-- NaN-propagating `max` of two cells (`max(pfs['days'], dtc['days'])`). -/
def nmax (a b : Option ℚ) : Option ℚ :=
  match a, b with
  | some x, some y => some (max x y)
  | _, _ => none

/-- Lexicographic comparison of character lists by code point, the order
`sort_values('channel')` sorts string cells by. -/
def strLeAux : List Char → List Char → Bool
  | [], _ => true
  | _ :: _, [] => false
  | a :: as, b :: bs =>
    if a.toNat < b.toNat then true
    else if b.toNat < a.toNat then false
    else strLeAux as bs

/-- Code-point lexicographic `≤` on strings (the pandas string sort
order). -/
def strLe (a b : String) : Bool := strLeAux a.data b.data

/-- First row of the channel selection,
`df_merged[df_merged['channel'] == c].iloc[0]`. -/
def findChannelRow (rows : List MergedRow) (c : String) : Option MergedRow :=
  rows.find? (fun r => decide (r.channel = c))

/-- Membership test `c in df_merged['channel'].values`. -/
def hasChannelRow (rows : List MergedRow) (c : String) : Bool :=
  rows.any (fun r => decide (r.channel = c))

/-- get_monthly_targets.py lines 225-298, `_merge_and_calculate`:
concatenates the database frame with the FF frame (when present), derives
a `DTC_EXCL_FF` row whenever a DTC row exists — subtracting the FF gmv,
net and uv when an FF frame was given and `0` otherwise — then a `TOTAL`
row whenever both PFS and DTC rows exist, and finally sorts by channel
name. -/
def mergeAndCalculate (df_db : List DbRow) (df_ff : Option FfRow) :
    Except PyError (List MergedRow) := do
  let df_merged := df_db.map DbRow.toMerged ++
    (match df_ff with
     | some f => [f.toMerged]
     | none => [])
  let df_merged ←
    if hasChannelRow df_merged "DTC" then
      match findChannelRow df_merged "DTC" with
      | some dtc => do
          let ff_gmv ← match df_ff with
            | some f => f.get "gmv"
            | none => pure (0 : ℚ)
          let ff_net ← match df_ff with
            | some f => f.get "net"
            | none => pure (0 : ℚ)
          let ff_uv ← match df_ff with
            | some f => f.get "uv"
            | none => pure (0 : ℚ)
          let dtc_excl_ff : MergedRow :=
            { year := dtc.year, month := dtc.month, channel := "DTC_EXCL_FF",
              gmv := nsubScalar dtc.gmv ff_gmv,
              net := nsubScalar dtc.net ff_net,
              net_units := dtc.net_units, gmv_units := dtc.gmv_units,
              uv := nsubScalar dtc.uv ff_uv, buyers := dtc.buyers,
              free_traffic := dtc.free_traffic,
              paid_traffic := dtc.paid_traffic, days := dtc.days,
              source := "calculated" }
          pure (df_merged ++ [dtc_excl_ff])
      | none => pure df_merged
    else pure df_merged
  let df_merged ←
    if hasChannelRow df_merged "PFS" ∧ hasChannelRow df_merged "DTC" then
      match findChannelRow df_merged "PFS", findChannelRow df_merged "DTC" with
      | some pfs, some dtc =>
          let total : MergedRow :=
            { year := pfs.year, month := pfs.month, channel := "TOTAL",
              gmv := nadd pfs.gmv dtc.gmv, net := nadd pfs.net dtc.net,
              net_units := nadd pfs.net_units dtc.net_units,
              gmv_units := nadd pfs.gmv_units dtc.gmv_units,
              uv := nadd pfs.uv dtc.uv, buyers := nadd pfs.buyers dtc.buyers,
              free_traffic := nadd pfs.free_traffic dtc.free_traffic,
              paid_traffic := nadd pfs.paid_traffic dtc.paid_traffic,
              days := nmax pfs.days dtc.days, source := "calculated" }
          pure (df_merged ++ [total])
      | _, _ => pure df_merged
    else pure df_merged
  pure (df_merged.insertionSort (fun a b => strLe a.channel b.channel))

/-! ## Concrete test fixtures used by the claim witnesses and
counterexamples -/

/-- A minimal valid monthly aggregate. -/
def fixtureMetric (year month : ℤ) (ch : ChannelType) (gmv net : ℚ)
    (uv buyers : ℤ) : MonthlyMetrics :=
  { year := year, month := month, channel := ch, gmv := gmv, net := net,
    uv := uv, buyers := buyers, aov := 0, cr := 0, paid_traffic := 0,
    non_paid_traffic := 0, free_traffic := 0 }

/-- One daily DTC record of the §8 scenario: April 2025, GMV 100000 per
day.  `TargetMetric` has no field that could carry the FF-sourced 10000
per day. -/
def c1DailyRec (day : ℤ) : TargetMetric :=
  { dateYear := 2025, dateMonth := 4, dateDay := day,
    channel := ChannelType.DTC, gmv := some 100000, net := some 90000,
    uv := some 1000, buyers := some 10, orders := some 10,
    gmv_units := some 20, free_traffic := some 500, paid_traffic := some 500 }

/-- The eight April-2025 daily DTC records of the §8 scenario. -/
def c1Daily : List TargetMetric :=
  [c1DailyRec 1, c1DailyRec 2, c1DailyRec 3, c1DailyRec 4, c1DailyRec 5,
   c1DailyRec 6, c1DailyRec 7, c1DailyRec 8]

/-- The database DTC monthly-summary row of the §8 scenario. -/
def c1DbDTC : DbRow :=
  { year := 2025, month := 4, channel := "DTC", gmv := 800000, net := 720000,
    net_units := 1600, gmv_units := 1600, uv := 8000, buyers := 80,
    free_traffic := 4000, paid_traffic := 4000, days := 8 }

/-- The spreadsheet FF monthly row of the §8 scenario (GMV 80000). -/
def c1Ff : FfRow :=
  { year := 2025, month := 4, gmv := 80000, net := 72000, uv := some 800 }

/-- A daily record whose month matches but whose visitor count is zero. -/
def c4Rec : TargetMetric :=
  { dateYear := 2025, dateMonth := 4, dateDay := 1,
    channel := ChannelType.DTC, gmv := some 50, net := some 50,
    uv := some 0, buyers := some 0 }

def c5CurZero : MonthlyMetrics := fixtureMetric 2025 5 ChannelType.DTC 0 0 0 0

def c5PriorZero : MonthlyMetrics := fixtureMetric 2024 5 ChannelType.DTC 0 0 0 0

def c5CurPos : MonthlyMetrics :=
  fixtureMetric 2025 5 ChannelType.DTC 0 120000 0 0

def c5PriorPos : MonthlyMetrics :=
  fixtureMetric 2024 5 ChannelType.DTC 0 100000 0 0

/-- A DTC daily record in April 2025 (calendar/fiscal-2026 month 4). -/
def c6AprRec : TargetMetric :=
  { dateYear := 2025, dateMonth := 4, dateDay := 15,
    channel := ChannelType.DTC, gmv := some 100, net := some 100,
    uv := some 10, buyers := some 1 }

/-- A DTC daily record in January 2026 (fiscal-2026 month 1), months
after the April-2025 target month of the C6 query. -/
def c6JanRec : TargetMetric :=
  { dateYear := 2026, dateMonth := 1, dateDay := 15,
    channel := ChannelType.DTC, gmv := some 500, net := some 500,
    uv := some 10, buyers := some 1 }

def c7Pfs : DbRow :=
  { year := 2025, month := 4, channel := "PFS", gmv := 300, net := 250,
    net_units := 10, gmv_units := 12, uv := 100, buyers := 20,
    free_traffic := 50, paid_traffic := 50, days := 30 }

def c7Dtc : DbRow :=
  { year := 2025, month := 4, channel := "DTC", gmv := 200, net := 150,
    net_units := 8, gmv_units := 9, uv := 80, buyers := 15,
    free_traffic := 40, paid_traffic := 40, days := 30 }

def c8Wbtq : MonthlyMetrics := fixtureMetric 2025 4 ChannelType.WBTQ 10 8 100 5

def c8Ofs : MonthlyMetrics := fixtureMetric 2025 4 ChannelType.OFS 20 16 200 10

/-- A DTC aggregate supplied in the input, deliberately different from
WBTQ + OFS. -/
def c8DtcIn : MonthlyMetrics :=
  fixtureMetric 2025 4 ChannelType.DTC 999 999 1 1

/-- A DTC daily record whose social sub-contribution exceeds its own
totals: subtracting SC drives gmv and net negative and uv to -30. -/
def c9NegRec : TargetMetric :=
  { dateYear := 2025, dateMonth := 4, dateDay := 1,
    channel := ChannelType.DTC, gmv := some 100, net := some 100,
    uv := some 50, buyers := some 10, orders := some 5,
    dtc_social_net := some 150, dtc_social_gmv := some 200,
    dtc_social_traffic := some 80 }

/-- A DTC daily record where subtracting SC leaves gmv/net positive but
drives uv to -30, exercising the `max(0, ...)` floor. -/
def c9FloorRec : TargetMetric :=
  { dateYear := 2025, dateMonth := 4, dateDay := 1,
    channel := ChannelType.DTC, gmv := some 1000, net := some 1000,
    uv := some 50, buyers := some 10, orders := some 5,
    dtc_social_net := some 150, dtc_social_gmv := some 200,
    dtc_social_traffic := some 80 }

/-- The aggregate the no-exclusion DTC aggregation of the §8 scenario
produces: month GMV 800000, net 720000, matching the database row. -/
def c1OkM : MonthlyMetrics :=
  { year := 2025, month := 4, channel := ChannelType.DTC, gmv := 800000,
    net := 720000, uv := 8000, buyers := 80, orders := some 80,
    gmv_units := some 160, aov := 10000, atv := some 10000,
    aur := some 5000, cr := 1, paid_traffic := 4000, non_paid_traffic := 0,
    free_traffic := 4000, cancel_amount := some 0, return_amount := some 0,
    total_refund_amount := some 0, cancel_rate := some 0,
    return_rate := some 0, rrc := some 0, rrc_after_cancel := some 0 }

/-- The `DTC_EXCL_FF` row the cross-source merge derives in the §8
scenario: database DTC counters minus the spreadsheet FF counters. -/
def c1ExclRow : MergedRow :=
  { year := 2025, month := 4, channel := "DTC_EXCL_FF",
    gmv := some (800000 - 80000), net := some (720000 - 72000),
    net_units := some 1600, gmv_units := some 1600,
    uv := some (8000 - 800), buyers := some 80,
    free_traffic := some 4000, paid_traffic := some 4000,
    days := some 8, source := "calculated" }

/-- The two-record daily list of the C6 scenario. -/
def c6Daily : List TargetMetric := [c6AprRec, c6JanRec]

/-- The fiscal-2026 month-1 (January 2026) aggregate of `c6Daily`. -/
def c6M1 : MonthlyMetrics :=
  { year := 2026, month := 1, channel := ChannelType.DTC, gmv := 500,
    net := 500, uv := 10, buyers := 1, aov := 500, cr := 10,
    paid_traffic := 0, non_paid_traffic := 0, free_traffic := 0 }

/-- The fiscal-2026 month-4 (April 2025) aggregate of `c6Daily`. -/
def c6M4 : MonthlyMetrics :=
  { year := 2025, month := 4, channel := ChannelType.DTC, gmv := 100,
    net := 100, uv := 10, buyers := 1, aov := 100, cr := 10,
    paid_traffic := 0, non_paid_traffic := 0, free_traffic := 0 }

/-- What `calculate_fiscal_ytd` returns for fiscal 2026 through fiscal
month 4: the sum of the January-2026 and April-2025 aggregates. -/
def c6Ytd : MonthlyMetrics :=
  { year := 2025, month := 4, channel := ChannelType.DTC, gmv := 600,
    net := 600, uv := 20, buyers := 2, aov := 300, cr := 10,
    paid_traffic := 0, non_paid_traffic := 0, free_traffic := 0 }

/-- The `DTC_EXCL_FF` row `_merge_and_calculate` derives from a DTC row
when the FF frame is absent: each subtracted counter is the DTC cell
minus `0`. -/
def c7ExclRow (dtc : DbRow) : MergedRow :=
  { year := dtc.year, month := dtc.month, channel := "DTC_EXCL_FF",
    gmv := nsubScalar (some dtc.gmv) 0, net := nsubScalar (some dtc.net) 0,
    net_units := some dtc.net_units, gmv_units := some dtc.gmv_units,
    uv := nsubScalar (some dtc.uv) 0, buyers := some dtc.buyers,
    free_traffic := some dtc.free_traffic,
    paid_traffic := some dtc.paid_traffic,
    days := some dtc.days, source := "calculated" }

/-- The `TOTAL` row `_merge_and_calculate` derives from a PFS and a DTC
row. -/
def c7TotalRow (pfs dtc : DbRow) : MergedRow :=
  { year := pfs.year, month := pfs.month, channel := "TOTAL",
    gmv := nadd (some pfs.gmv) (some dtc.gmv),
    net := nadd (some pfs.net) (some dtc.net),
    net_units := nadd (some pfs.net_units) (some dtc.net_units),
    gmv_units := nadd (some pfs.gmv_units) (some dtc.gmv_units),
    uv := nadd (some pfs.uv) (some dtc.uv),
    buyers := nadd (some pfs.buyers) (some dtc.buyers),
    free_traffic := nadd (some pfs.free_traffic) (some dtc.free_traffic),
    paid_traffic := nadd (some pfs.paid_traffic) (some dtc.paid_traffic),
    days := nmax (some pfs.days) (some dtc.days), source := "calculated" }

/-- A PFS aggregate for the C8 scenario. -/
def c8Pfs : MonthlyMetrics := fixtureMetric 2025 4 ChannelType.PFS 40 32 400 20

/-- C8 input containing WBTQ, OFS, PFS and a pre-existing DTC entry. -/
def c8Input : List MonthlyMetrics := [c8Pfs, c8Wbtq, c8Ofs, c8DtcIn]

/-- The aggregate the SC-only DTC exclusion returns on `c9FloorRec`:
the floored visitor count is 0 while gmv and net carry the unclamped
subtracted sums. -/
def c9FloorM : MonthlyMetrics :=
  { year := 2025, month := 4, channel := ChannelType.DTC, gmv := 800,
    net := 850, uv := 0, buyers := 10, orders := some 5,
    gmv_units := some 0, aov := 160, atv := some 80, aur := none, cr := 0,
    paid_traffic := 0, non_paid_traffic := 0, free_traffic := 0,
    cancel_amount := some 0, return_amount := some 0,
    total_refund_amount := some 0, cancel_rate := some 0,
    return_rate := some 0, rrc := some 0, rrc_after_cancel := some 0 }

/-! ## Helper lemmas -/

lemma violation_eq_nil_iff {p : Prop} [Decidable p] {f : String} :
    violation p f = [] ↔ ¬p := by
  simp [violation, ite_eq_right_iff]

lemma MonthlyMetrics.validate_eq_ok {m : MonthlyMetrics}
    (h : m.invalids = []) : m.validate = .ok m := by
  unfold MonthlyMetrics.validate
  rw [h]

lemma MonthlyMetrics.validate_ok_inv {m m' : MonthlyMetrics}
    (h : m.validate = .ok m') : m' = m ∧ m.invalids = [] := by
  unfold MonthlyMetrics.validate at h
  rcases hi : m.invalids with _ | ⟨f, rest⟩
  · rw [hi] at h
    exact ⟨(Except.ok.injEq _ _ ▸ h).symm, rfl⟩
  · rw [hi] at h
    exact absurd h (by simp)

lemma reDeriveRatios_preserves (c r : Option ℚ) (m : MonthlyMetrics) :
    (reDeriveRatios c r m).year = m.year ∧
    (reDeriveRatios c r m).month = m.month ∧
    (reDeriveRatios c r m).channel = m.channel ∧
    (reDeriveRatios c r m).gmv = m.gmv ∧
    (reDeriveRatios c r m).net = m.net ∧
    (reDeriveRatios c r m).uv = m.uv ∧
    (reDeriveRatios c r m).buyers = m.buyers ∧
    (reDeriveRatios c r m).orders = m.orders ∧
    (reDeriveRatios c r m).paid_traffic = m.paid_traffic ∧
    (reDeriveRatios c r m).non_paid_traffic = m.non_paid_traffic ∧
    (reDeriveRatios c r m).free_traffic = m.free_traffic ∧
    (reDeriveRatios c r m).cancel_amount = m.cancel_amount ∧
    (reDeriveRatios c r m).return_amount = m.return_amount := by
  unfold reDeriveRatios
  repeat exact ⟨rfl, by simp⟩

lemma optAdd_nonneg {a b : Option ℚ} (ha : ∀ v ∈ a, 0 ≤ v)
    (hb : ∀ v ∈ b, 0 ≤ v) : ∀ v ∈ optAdd a b, 0 ≤ v := by
  cases a <;> cases b <;> simp_all [optAdd]
  linarith

lemma optAddZ_nonneg {a b : Option ℤ} (ha : ∀ v ∈ a, 0 ≤ v)
    (hb : ∀ v ∈ b, 0 ≤ v) : ∀ v ∈ optAddZ a b, 0 ≤ v := by
  cases a <;> cases b <;> simp_all [optAddZ]
  omega

lemma totalRefundIfTruthy_nonneg {a b : Option ℚ} (ha : ∀ v ∈ a, 0 ≤ v)
    (hb : ∀ v ∈ b, 0 ≤ v) : ∀ v ∈ totalRefundIfTruthy a b, 0 ≤ v := by
  have ha0 : 0 ≤ a.getD 0 := by cases a <;> simp_all
  have hb0 : 0 ≤ b.getD 0 := by cases b <;> simp_all
  unfold totalRefundIfTruthy
  split
  · intro v hv
    simp only [Option.mem_def, Option.some.injEq] at hv
    subst hv
    linarith
  · intro v hv
    simp at hv


lemma except_bind_ok {α β : Type} (a : α) (f : α → Except PyError β) :
    ((Except.ok a : Except PyError α) >>= f) = f a := rfl

lemma except_map_ok_inv {α β : Type} {f : α → β} {e : Except PyError α}
    {b : β} (h : e.map f = .ok b) : ∃ a, e = .ok a ∧ f a = b := by
  cases e with
  | ok a => exact ⟨a, rfl, by simpa [Except.map] using h⟩
  | error err => simp [Except.map] at h

lemma pyInt_max_nonneg (q : ℚ) : 0 ≤ pyInt (max 0 q) := by
  unfold pyInt
  rw [if_pos (le_max_left 0 q)]
  exact Int.floor_nonneg.mpr (le_max_left 0 q)

lemma invalids_nil_gmv {m : MonthlyMetrics} (h : m.invalids = []) :
    0 ≤ m.gmv := by
  by_contra hneg
  push_neg at hneg
  have hmem : "gmv" ∈ m.invalids := by
    simp [MonthlyMetrics.invalids, violation, hneg]
  rw [h] at hmem
  exact absurd hmem (List.not_mem_nil _)

lemma invalids_nil_net {m : MonthlyMetrics} (h : m.invalids = []) :
    0 ≤ m.net := by
  by_contra hneg
  push_neg at hneg
  have hmem : "net" ∈ m.invalids := by
    simp [MonthlyMetrics.invalids, violation, hneg]
  rw [h] at hmem
  exact absurd hmem (List.not_mem_nil _)

lemma composeSums_invalids (tag : ChannelType) {p d : MonthlyMetrics}
    (hp : p.Valid) (hd : d.Valid) : (composeSums tag p d).invalids = [] := by
  obtain ⟨hp1, hp2, hp3, hp4, hp5, hp6, hp7, hp8, hp9, hp10, hp11, hp12⟩ := hp
  obtain ⟨hd1, hd2, hd3, hd4, hd5, hd6, hd7, hd8, hd9, hd10, hd11, hd12⟩ := hd
  have hca := optAdd_nonneg hp11 hd11
  have hra := optAdd_nonneg hp12 hd12
  simp only [MonthlyMetrics.invalids, composeSums, List.append_eq_nil,
    violation_eq_nil_iff]
  repeat' apply And.intro
  all_goals try push_neg
  all_goals try omega
  all_goals try linarith
  all_goals try exact fun o ho => optAddZ_nonneg hp7 hd7 o ho
  all_goals try exact fun v hv => hca v hv
  all_goals try exact fun v hv => hra v hv
  all_goals try exact fun v hv => totalRefundIfTruthy_nonneg hca hra v hv
  all_goals simp

lemma composeTwoChannels_ok (tag : ChannelType) {p d : MonthlyMetrics}
    (hp : p.Valid) (hd : d.Valid) (hy : p.year = d.year)
    (hm : p.month = d.month) :
    ∃ t, composeTwoChannels tag (some p) (some d) = .ok (some t) ∧
      t.year = p.year ∧ t.month = p.month ∧ t.channel = tag ∧
      t.gmv = p.gmv + d.gmv ∧ t.net = p.net + d.net ∧
      t.uv = p.uv + d.uv ∧ t.buyers = p.buyers + d.buyers ∧ t.Valid := by
  have hnil := composeSums_invalids tag hp hd
  have hval := MonthlyMetrics.validate_eq_ok hnil
  obtain ⟨e1, e2, e3, e4, e5, e6, e7, e8, e9, e10, e11, e12, e13⟩ :=
    reDeriveRatios_preserves (optAdd p.cancel_amount d.cancel_amount)
      (optAdd p.return_amount d.return_amount) (composeSums tag p d)
  obtain ⟨hp1, hp2, hp3, hp4, hp5, hp6, hp7, hp8, hp9, hp10, hp11, hp12⟩ := hp
  obtain ⟨hd1, hd2, hd3, hd4, hd5, hd6, hd7, hd8, hd9, hd10, hd11, hd12⟩ := hd
  have hcond : ¬(p.year ≠ d.year ∨ p.month ≠ d.month) := by simp [hy, hm]
  refine ⟨reDeriveRatios (optAdd p.cancel_amount d.cancel_amount)
      (optAdd p.return_amount d.return_amount) (composeSums tag p d),
    ?_, ?_, ?_, ?_, ?_, ?_, ?_, ?_, ?_⟩
  · simp only [composeTwoChannels]
    rw [if_neg hcond, hval]
    rfl
  · rw [e1]; rfl
  · rw [e2]; rfl
  · rw [e3]; rfl
  · rw [e4]; rfl
  · rw [e5]; rfl
  · rw [e6]; rfl
  · rw [e7]; rfl
  · refine ⟨?_, ?_, ?_, ?_, ?_, ?_, ?_, ?_, ?_, ?_, ?_, ?_⟩
    · rw [e2]; show 1 ≤ p.month; omega
    · rw [e2]; show p.month ≤ 12; omega
    · rw [e4]; show 0 ≤ p.gmv + d.gmv; linarith
    · rw [e5]; show 0 ≤ p.net + d.net; linarith
    · rw [e6]; show 0 ≤ p.uv + d.uv; omega
    · rw [e7]; show 0 ≤ p.buyers + d.buyers; omega
    · rw [e8]; exact optAddZ_nonneg hp7 hd7
    · rw [e9]; show 0 ≤ p.paid_traffic + d.paid_traffic; omega
    · rw [e10]; show 0 ≤ p.non_paid_traffic + d.non_paid_traffic; omega
    · rw [e11]; show 0 ≤ p.free_traffic + d.free_traffic; omega
    · rw [e12]; exact optAdd_nonneg hp11 hd11
    · rw [e13]; exact optAdd_nonneg hp12 hd12

lemma channelsOf_append_single (ms : List MonthlyMetrics)
    (m : MonthlyMetrics) (c : ChannelType) :
    channelsOf (ms ++ [m]) c =
      if c = m.channel then some m else channelsOf ms c := by
  simp [channelsOf, List.foldl_append]

lemma channelsOf_mem {ms : List MonthlyMetrics} {c : ChannelType}
    {m : MonthlyMetrics} (h : channelsOf ms c = some m) :
    m ∈ ms ∧ m.channel = c := by
  induction ms using List.reverseRecOn with
  | nil => simp [channelsOf] at h
  | append_singleton ms x ih =>
      rw [channelsOf_append_single] at h
      by_cases hc : c = x.channel
      · rw [if_pos hc] at h
        obtain rfl : x = m := by simpa using h
        exact ⟨by simp, hc.symm⟩
      · rw [if_neg hc] at h
        obtain ⟨h1, h2⟩ := ih h
        exact ⟨by simp [h1], h2⟩

lemma updateChannel_ne {f : ChannelType → Option MonthlyMetrics}
    {c key : ChannelType} {m : MonthlyMetrics} (h : c ≠ key) :
    updateChannel f key m c = f c := by
  simp [updateChannel, h]

lemma updateChannel_self (f : ChannelType → Option MonthlyMetrics)
    (key : ChannelType) (m : MonthlyMetrics) :
    updateChannel f key m key = some m := by
  simp [updateChannel]

/-- What `calculate_channel_breakdown` computes when WBTQ, OFS and PFS
entries are all present with matching periods: the result is the input
dictionary with the `DTC` key overwritten by WBTQ+OFS and the `TOTAL`
key overwritten by PFS+DTC. -/
lemma breakdown_spec (ms : List MonthlyMetrics) (w o p : MonthlyMetrics)
    (hw : channelsOf ms ChannelType.WBTQ = some w)
    (ho : channelsOf ms ChannelType.OFS = some o)
    (hp : channelsOf ms ChannelType.PFS = some p)
    (hvw : w.Valid) (hvo : o.Valid) (hvp : p.Valid)
    (hy : w.year = o.year) (hm : w.month = o.month)
    (hpy : p.year = w.year) (hpm : p.month = w.month) :
    ∃ d t, ChannelAggregator.calculate_channel_breakdown ms =
        .ok (updateChannel (updateChannel (channelsOf ms) ChannelType.DTC d)
          ChannelType.TOTAL t) ∧
      d.channel = ChannelType.DTC ∧ d.gmv = w.gmv + o.gmv ∧
      d.net = w.net + o.net ∧ t.channel = ChannelType.TOTAL ∧
      t.gmv = p.gmv + d.gmv ∧ t.net = p.net + d.net := by
  obtain ⟨d, hd1, hdy, hdm, hdc, hdg, hdn, hdu, hdb, hdv⟩ :=
    composeTwoChannels_ok ChannelType.DTC hvw hvo hy hm
  obtain ⟨t, ht1, hty, htm, htc, htg, htn, htu, htb, htv⟩ :=
    composeTwoChannels_ok ChannelType.TOTAL hvp hdv
      (by rw [hdy, hpy]) (by rw [hdm, hpm])
  refine ⟨d, t, ?_, hdc, hdg, hdn, htc, htg, htn⟩
  simp only [ChannelAggregator.calculate_channel_breakdown, hw, ho, hp,
    ChannelAggregator.calculate_dtc_channel,
    ChannelAggregator.calculate_total_channel, hd1, except_bind_ok,
    pure_bind, updateChannel_self, ht1]
  rfl

/-! ## Claim theorems -/

/-- C3: for every calendar date the fiscal year is the calendar year plus
one for months ≥ 4 and the calendar year otherwise; the fiscal quarter is
Q1 for months 4-6, Q2 for 7-9, Q3 for 10-12 and Q4 for months 1-3; the
fiscal-year start for a (year, month) pair is April 1 of that year for
months ≥ 4 and April 1 of the previous year otherwise; and the cited
examples hold (2025-04-01 → fiscal 2026 Q1, 2026-03-31 → fiscal 2026 Q4,
fiscal-year start (2025,11) = 2025-04-01, (2025,2) = 2024-04-01). -/
theorem c3_fiscal_calendar_mapping :
    (∀ d : PyDate, 4 ≤ d.month → FiscalYear.get_fiscal_year d = d.year + 1) ∧
    (∀ d : PyDate, d.month < 4 → FiscalYear.get_fiscal_year d = d.year) ∧
    (∀ d : PyDate, 4 ≤ d.month → d.month ≤ 6 →
      FiscalYear.get_fiscal_quarter d = 1) ∧
    (∀ d : PyDate, 7 ≤ d.month → d.month ≤ 9 →
      FiscalYear.get_fiscal_quarter d = 2) ∧
    (∀ d : PyDate, 10 ≤ d.month → d.month ≤ 12 →
      FiscalYear.get_fiscal_quarter d = 3) ∧
    (∀ d : PyDate, 1 ≤ d.month → d.month ≤ 3 →
      FiscalYear.get_fiscal_quarter d = 4) ∧
    (∀ y m : ℤ, 4 ≤ m → getFyStartDate y m = ⟨y, 4, 1⟩) ∧
    (∀ y m : ℤ, m < 4 → getFyStartDate y m = ⟨y - 1, 4, 1⟩) ∧
    FiscalYear.get_fiscal_year ⟨2025, 4, 1⟩ = 2026 ∧
    FiscalYear.get_fiscal_quarter ⟨2025, 4, 1⟩ = 1 ∧
    FiscalYear.get_fiscal_year ⟨2026, 3, 31⟩ = 2026 ∧
    FiscalYear.get_fiscal_quarter ⟨2026, 3, 31⟩ = 4 ∧
    getFyStartDate 2025 11 = ⟨2025, 4, 1⟩ ∧
    getFyStartDate 2025 2 = ⟨2024, 4, 1⟩ := by
  refine ⟨?_, ?_, ?_, ?_, ?_, ?_, ?_, ?_, by decide, by decide, by decide,
    by decide, by decide, by decide⟩
  · intro d h
    unfold FiscalYear.get_fiscal_year
    rw [if_pos h]
  · intro d h
    unfold FiscalYear.get_fiscal_year
    rw [if_neg (by omega)]
  · intro d h1 h2
    unfold FiscalYear.get_fiscal_quarter
    split_ifs <;> omega
  · intro d h1 h2
    unfold FiscalYear.get_fiscal_quarter
    split_ifs <;> omega
  · intro d h1 h2
    unfold FiscalYear.get_fiscal_quarter
    split_ifs <;> omega
  · intro d h1 h2
    unfold FiscalYear.get_fiscal_quarter
    split_ifs <;> omega
  · intro y m h
    unfold getFyStartDate
    rw [if_pos h]
  · intro y m h
    unfold getFyStartDate
    rw [if_neg (by omega)]

/-- Witness for C3 at concrete dates: July 2025 is fiscal year 2026
quarter 2, and the fiscal-year start for (2026, 1) is 2025-04-01. -/
theorem c3_fiscal_calendar_mapping_witness :
    FiscalYear.get_fiscal_year ⟨2025, 7, 1⟩ = 2026 ∧
    FiscalYear.get_fiscal_quarter ⟨2025, 7, 1⟩ = 2 ∧
    getFyStartDate 2026 1 = ⟨2025, 4, 1⟩ := by
  have A := c3_fiscal_calendar_mapping
  exact ⟨A.1 ⟨2025, 7, 1⟩ (by norm_num),
    A.2.2.2.1 ⟨2025, 7, 1⟩ (by norm_num) (by norm_num),
    A.2.2.2.2.2.2.2.1 2026 1 (by norm_num)⟩

/-- C4 counterexample: on a selection whose visitor count is zero the
Period Aggregator does not return an aggregate with a null conversion
rate.  `calculate_cr` does return `None` there, but the aggregation
coerces it to `0.0` (`aggCr`), and the construction then raises a
`ValidationError` because the required `non_paid_traffic` field is never
supplied — so the claimed null conversion rate never appears. -/
theorem c4_cr_counterexample :
    DataAggregator.aggregate_monthly [c4Rec] 2025 4 ChannelType.DTC =
      .error (.validationError "non_paid_traffic") ∧
    DataAggregator.aggCr 0 0 = 0 ∧
    MetricCalculator.calculate_cr (some 0) (some 0) = none := by
  exact ⟨rfl, rfl, rfl⟩

/-- C4 (amended): `calculate_cr` yields buyers/uv×100 rounded to two
decimals when uv > 0 and null when uv = 0; but the monthly aggregation
coerces that null to 0.0 in the conversion-rate slot, and
`aggregate_monthly` as written never returns an aggregate at all — the
`MonthlyMetrics` construction omits the required `non_paid_traffic`
field, so every nonempty selection raises a `ValidationError`. -/
theorem c4_cr_amended :
    (∀ b u : ℤ, u ≠ 0 → MetricCalculator.calculate_cr (some b) (some u) =
      some (pyRound2 ((b : ℚ) / (u : ℚ) * 100))) ∧
    (∀ b : ℤ, MetricCalculator.calculate_cr (some b) (some 0) = none) ∧
    (∀ b : ℤ, DataAggregator.aggCr b 0 = 0) ∧
    (∀ b u : ℤ, u ≠ 0 →
      DataAggregator.aggCr b u = pyRound2 ((b : ℚ) / (u : ℚ) * 100)) ∧
    (∀ daily : List TargetMetric, ∀ year month : ℤ, ∀ channel : ChannelType,
      filterMonth daily year month channel ≠ [] →
      DataAggregator.aggregate_monthly daily year month channel =
        .error (.validationError "non_paid_traffic")) := by
  refine ⟨?_, ?_, ?_, ?_, ?_⟩
  · intro b u h
    simp [MetricCalculator.calculate_cr, h]
  · intro b
    simp [MetricCalculator.calculate_cr]
  · intro b
    simp [DataAggregator.aggCr, MetricCalculator.calculate_cr]
  · intro b u h
    simp [DataAggregator.aggCr, MetricCalculator.calculate_cr, h]
  · intro daily year month channel hne
    have hdaily : daily ≠ [] := by
      intro h
      subst h
      exact hne rfl
    unfold DataAggregator.aggregate_monthly
    rw [if_neg hdaily, if_neg hne]
    rfl

/-- Witness for C4 (amended) at concrete inputs. -/
theorem c4_cr_amended_witness :
    MetricCalculator.calculate_cr (some 35) (some 1000) = some (7/2) ∧
    DataAggregator.aggCr 35 1000 = 7/2 ∧
    DataAggregator.aggregate_monthly [c4Rec] 2025 4 ChannelType.DTC =
      .error (.validationError "non_paid_traffic") := by
  have A := c4_cr_amended
  refine ⟨?_, ?_, A.2.2.2.2 [c4Rec] 2025 4 ChannelType.DTC (by decide)⟩
  · rw [A.1 35 1000 (by norm_num)]
    norm_num [pyRound2, roundHalfEven, ratFloor]
  · rw [A.2.2.2.1 35 1000 (by norm_num)]
    norm_num [pyRound2, roundHalfEven, ratFloor]

/-- C5 counterexample: in the fiscal lookup path a prior-year aggregate
with zero revenue makes `calculate_fiscal_yoy` return `None` even when
the current revenue is also zero — the claim says 0 there; and in the
calendar path `calculate_yoy` rounds to two decimals, so it differs from
the exact formula (current−prior)/prior×100 at current=4, prior=3. -/
theorem c5_yoy_counterexample :
    FiscalYearAggregator.calculate_fiscal_yoy c5CurZero [c5PriorZero] =
      none ∧
    FiscalYearAggregator.calculate_fiscal_yoy c5CurZero [c5PriorZero] ≠
      some 0 ∧
    MetricCalculator.calculate_yoy (some 4) (some 3) = some (3333/100) ∧
    ((3333 : ℚ)/100 ≠ (4 - 3) / 3 * 100) := by
  refine ⟨?_, ?_, ?_, by norm_num⟩
  · simp only [FiscalYearAggregator.calculate_fiscal_yoy]
    norm_num [c5CurZero, c5PriorZero, fixtureMetric, MonthlyMetrics.fiscal_year,
      MonthlyMetrics.fiscal_month, FiscalYear.get_fiscal_year, List.find?]
  · simp only [FiscalYearAggregator.calculate_fiscal_yoy]
    norm_num [c5CurZero, c5PriorZero, fixtureMetric, MonthlyMetrics.fiscal_year,
      MonthlyMetrics.fiscal_month, FiscalYear.get_fiscal_year, List.find?]
    simp
  · norm_num [MetricCalculator.calculate_yoy, pyRound2, roundHalfEven, ratFloor]

/-- C5 (amended): the calendar path (`calculate_yoy`) returns the growth
ratio rounded to two decimals when the prior value is nonzero, 0 when
prior and current are both 0, and null when prior is 0 and current is
not.  The fiscal path (`calculate_fiscal_yoy`) returns the unrounded
ratio when the first matching prior aggregate has positive net, and null
whenever the prior net is ≤ 0 (even if the current net is 0) or no prior
aggregate matches. -/
theorem c5_yoy_amended :
    (∀ c l : ℚ, l ≠ 0 →
      MetricCalculator.calculate_yoy (some c) (some l) =
        some (pyRound2 ((c - l) / l * 100))) ∧
    (MetricCalculator.calculate_yoy (some 0) (some 0) = some 0) ∧
    (∀ c : ℚ, c ≠ 0 → MetricCalculator.calculate_yoy (some c) (some 0) =
      none) ∧
    (∀ cur : MonthlyMetrics, ∀ pool : List MonthlyMetrics,
      ∀ m : MonthlyMetrics,
      pool.find? (fun x => decide (x.fiscal_year = cur.fiscal_year - 1 ∧
        x.fiscal_month = cur.fiscal_month ∧ x.channel = cur.channel)) =
          some m →
      (0 < m.net →
        FiscalYearAggregator.calculate_fiscal_yoy cur pool =
          some ((cur.net - m.net) / m.net * 100)) ∧
      (m.net ≤ 0 →
        FiscalYearAggregator.calculate_fiscal_yoy cur pool = none)) ∧
    (∀ cur : MonthlyMetrics, ∀ pool : List MonthlyMetrics,
      pool.find? (fun x => decide (x.fiscal_year = cur.fiscal_year - 1 ∧
        x.fiscal_month = cur.fiscal_month ∧ x.channel = cur.channel)) =
          none →
      FiscalYearAggregator.calculate_fiscal_yoy cur pool = none) := by
  refine ⟨?_, by decide, ?_, ?_, ?_⟩
  · intro c l h
    simp [MetricCalculator.calculate_yoy, h]
  · intro c h
    simp [MetricCalculator.calculate_yoy, h]
  · intro cur pool m hfind
    constructor
    · intro hnet
      simp only [FiscalYearAggregator.calculate_fiscal_yoy, hfind]
      rw [if_pos hnet]
    · intro hnet
      simp only [FiscalYearAggregator.calculate_fiscal_yoy, hfind]
      rw [if_neg (not_lt.mpr hnet)]
  · intro cur pool hfind
    simp only [FiscalYearAggregator.calculate_fiscal_yoy, hfind]

/-- Witness for C5 (amended): prior net 100000 and current net 120000
give 20 percent on both paths. -/
theorem c5_yoy_amended_witness :
    MetricCalculator.calculate_yoy (some 120000) (some 100000) = some 20 ∧
    FiscalYearAggregator.calculate_fiscal_yoy c5CurPos [c5PriorPos] =
      some 20 := by
  have A := c5_yoy_amended
  constructor
  · rw [A.1 120000 100000 (by norm_num)]
    norm_num [pyRound2, roundHalfEven, ratFloor]
  · have hfind : [c5PriorPos].find? (fun x =>
        decide (x.fiscal_year = c5CurPos.fiscal_year - 1 ∧
          x.fiscal_month = c5CurPos.fiscal_month ∧
          x.channel = c5CurPos.channel)) = some c5PriorPos := by
      norm_num [c5CurPos, c5PriorPos, fixtureMetric, MonthlyMetrics.fiscal_year,
        MonthlyMetrics.fiscal_month, FiscalYear.get_fiscal_year, List.find?]
    have h := (A.2.2.2.1 c5CurPos [c5PriorPos] c5PriorPos hfind).1
      (by norm_num [c5PriorPos, fixtureMetric])
    rw [h]
    norm_num [c5CurPos, c5PriorPos, fixtureMetric]

/-- C2: for every pair of validly constructed PFS and DTC aggregates with
the same (year, month), `calculate_total_channel` returns an aggregate
whose net revenue is exactly PFS.net + DTC.net and whose GMV is exactly
PFS.gmv + DTC.gmv; if either input is absent or the periods differ, the
result is `None`. -/
theorem c2_total_channel_exact_sums (p d : MonthlyMetrics)
    (hp : p.Valid) (hd : d.Valid) :
    (p.year = d.year → p.month = d.month →
      ∃ t, ChannelAggregator.calculate_total_channel (some p) (some d) =
        .ok (some t) ∧ t.net = p.net + d.net ∧ t.gmv = p.gmv + d.gmv ∧
        t.channel = ChannelType.TOTAL) ∧
    (¬(p.year = d.year ∧ p.month = d.month) →
      ChannelAggregator.calculate_total_channel (some p) (some d) =
        .ok none) ∧
    ChannelAggregator.calculate_total_channel none (some d) = .ok none ∧
    ChannelAggregator.calculate_total_channel (some p) none = .ok none ∧
    ChannelAggregator.calculate_total_channel none none = .ok none := by
  refine ⟨?_, ?_, rfl, rfl, rfl⟩
  · intro hy hm
    obtain ⟨t, h1, h2, h3, h4, h5, h6, h7, h8, h9⟩ :=
      composeTwoChannels_ok ChannelType.TOTAL hp hd hy hm
    exact ⟨t, h1, h6, h5, h4⟩
  · intro hne
    unfold ChannelAggregator.calculate_total_channel
    simp only [composeTwoChannels]
    rw [if_pos (not_and_or.mp hne)]

/-- Witness for C2 at concrete valid aggregates: PFS (net 250, gmv 300)
plus DTC (net 150, gmv 200) compose to TOTAL with net 400 and gmv 500. -/
theorem c2_total_channel_exact_sums_witness :
    ∃ t, ChannelAggregator.calculate_total_channel
        (some (fixtureMetric 2025 4 ChannelType.PFS 300 250 100 20))
        (some (fixtureMetric 2025 4 ChannelType.DTC 200 150 80 15)) =
      .ok (some t) ∧ t.net = 400 ∧ t.gmv = 500 := by
  obtain ⟨t, h1, h2, h3, h4⟩ :=
    (c2_total_channel_exact_sums
      (fixtureMetric 2025 4 ChannelType.PFS 300 250 100 20)
      (fixtureMetric 2025 4 ChannelType.DTC 200 150 80 15)
      (by unfold MonthlyMetrics.Valid; decide)
      (by unfold MonthlyMetrics.Valid; decide)).1 rfl rfl
  refine ⟨t, h1, ?_, ?_⟩
  · rw [h2]
    norm_num [fixtureMetric]
  · rw [h3]
    norm_num [fixtureMetric]

/-- C10 counterexample: `aggregate_monthly_with_exclusion` on DTC with
both FF and SC exclusions enabled does not raise `AttributeError` — it
fails earlier with `KeyError` on the missing `dtc_ff_net` column, before
the missing enum member is ever accessed. -/
theorem c10_counterexample_keyerror_first :
    CoreBusinessCalculator.aggregate_monthly_with_exclusion [c9FloorRec]
      2025 4 ChannelType.DTC ⟨true, true⟩ =
      .error (.keyError "dtc_ff_net") ∧
    PyError.keyError "dtc_ff_net" ≠
      PyError.attributeError "DTC_EXCL_FF_SC" := by
  exact ⟨rfl, by decide⟩

/-- C10 (amended): the `ChannelType` enum defines no `DTC_EXCL_FF`,
`DTC_EXCL_FF_SC` or `CORE_BUSINESS` member, so `calculate_dtc_excl_ff`,
`calculate_dtc_excl_ff_sc` and `calculate_core_business` (with non-null
period-matched inputs) raise `AttributeError` on the missing member
instead of returning an aggregate; `aggregate_monthly_with_exclusion` on
DTC with both exclusions enabled, however, raises `KeyError` on the
missing `dtc_ff_net` column first, because `TargetMetric` defines no
`dtc_ff_*` fields. -/
theorem c10_missing_enum_members :
    (∀ d : MonthlyMetrics,
      CoreBusinessCalculator.calculate_dtc_excl_ff (some d) =
        .error (.attributeError "DTC_EXCL_FF")) ∧
    (∀ d : MonthlyMetrics,
      CoreBusinessCalculator.calculate_dtc_excl_ff_sc (some d) =
        .error (.attributeError "DTC_EXCL_FF_SC")) ∧
    (∀ p d : MonthlyMetrics, p.year = d.year → p.month = d.month →
      CoreBusinessCalculator.calculate_core_business (some p) (some d) =
        .error (.attributeError "CORE_BUSINESS")) ∧
    (∀ daily : List TargetMetric, ∀ year month : ℤ,
      filterMonth daily year month ChannelType.DTC ≠ [] →
      CoreBusinessCalculator.aggregate_monthly_with_exclusion daily year
        month ChannelType.DTC ⟨true, true⟩ =
        .error (.keyError "dtc_ff_net")) ∧
    ChannelType.attr "DTC_EXCL_FF" = none ∧
    ChannelType.attr "DTC_EXCL_FF_SC" = none ∧
    ChannelType.attr "CORE_BUSINESS" = none := by
  refine ⟨?_, ?_, ?_, ?_, rfl, rfl, rfl⟩
  · intro d
    rfl
  · intro d
    rfl
  · intro p d hy hm
    simp only [CoreBusinessCalculator.calculate_core_business]
    rw [if_neg (by simp [hy, hm])]
    rfl
  · intro daily year month hne
    have hdaily : daily ≠ [] := by
      intro h
      subst h
      exact hne rfl
    unfold CoreBusinessCalculator.aggregate_monthly_with_exclusion
    rw [if_neg hdaily, if_neg hne]
    rfl

/-- Witness for C10 (amended) at concrete inputs. -/
theorem c10_missing_enum_members_witness :
    CoreBusinessCalculator.calculate_dtc_excl_ff (some c8DtcIn) =
      .error (.attributeError "DTC_EXCL_FF") ∧
    CoreBusinessCalculator.calculate_core_business (some c8Wbtq)
      (some c8Ofs) = .error (.attributeError "CORE_BUSINESS") ∧
    CoreBusinessCalculator.aggregate_monthly_with_exclusion [c9FloorRec]
      2025 4 ChannelType.DTC ⟨true, true⟩ =
      .error (.keyError "dtc_ff_net") := by
  have A := c10_missing_enum_members
  exact ⟨A.1 c8DtcIn, A.2.2.1 c8Wbtq c8Ofs rfl rfl,
    A.2.2.2.1 [c9FloorRec] 2025 4 (by decide)⟩

lemma validate_eq_error_head {m : MonthlyMetrics} {f : String}
    {rest : List String} (h : m.invalids = f :: rest) :
    m.validate = .error (.validationError f) := by
  unfold MonthlyMetrics.validate
  rw [h]

lemma fiscal_monthly_nonempty (daily : List TargetMetric) (fy fm : ℤ)
    (ch : ChannelType) (hd : daily ≠ [])
    (hm : filterMonth daily (if 4 ≤ fm then fy - 1 else fy) fm ch ≠ []) :
    FiscalYearAggregator.aggregate_fiscal_year_monthly daily fy fm ch =
      (fiscalAggCore (if 4 ≤ fm then fy - 1 else fy) fm ch
        (filterMonth daily (if 4 ≤ fm then fy - 1 else fy) fm ch)).map
        some := by
  simp only [FiscalYearAggregator.aggregate_fiscal_year_monthly]
  rw [if_neg hd, if_neg hm]

lemma fiscal_monthly_empty (daily : List TargetMetric) (fy fm : ℤ)
    (ch : ChannelType)
    (hm : filterMonth daily (if 4 ≤ fm then fy - 1 else fy) fm ch = []) :
    FiscalYearAggregator.aggregate_fiscal_year_monthly daily fy fm ch =
      .ok none := by
  by_cases hd : daily = []
  · subst hd
    rfl
  · simp only [FiscalYearAggregator.aggregate_fiscal_year_monthly]
    rw [if_neg hd, if_pos hm]

set_option maxHeartbeats 800000 in
lemma aggExcl_no_exclusion (daily : List TargetMetric) (y mo : ℤ)
    (ch : ChannelType) (hd : daily ≠ [])
    (hm : filterMonth daily y mo ch ≠ []) :
    CoreBusinessCalculator.aggregate_monthly_with_exclusion daily y mo ch
        ⟨false, false⟩ =
      (aggExclCore y mo ch (filterMonth daily y mo ch)).map some := by
  have hb : ¬((false : Bool) = true) := by simp
  simp only [CoreBusinessCalculator.aggregate_monthly_with_exclusion]
  rw [if_neg hd, if_neg hm]
  rw [if_neg (show ¬(ch = ChannelType.DTC ∧ ((false : Bool) = true ∨ (false : Bool) = true)) from fun h => hb (h.2.elim id id)), pure_bind]
  by_cases hch : ch = ChannelType.DTC
  · subst hch
    rw [if_pos rfl, if_neg (show ¬((false : Bool) = true ∧ (false : Bool) = true) from fun h => hb h.1), if_neg hb, pure_bind]
  · rw [if_neg hch, pure_bind]


set_option maxHeartbeats 800000 in
lemma aggExcl_sc_only (daily : List TargetMetric) (y mo : ℤ)
    (hd : daily ≠ [])
    (hm : filterMonth daily y mo ChannelType.DTC ≠ []) :
    CoreBusinessCalculator.aggregate_monthly_with_exclusion daily y mo
        ChannelType.DTC ⟨false, true⟩ =
      (aggExclCore y mo ChannelType.DTC
        ((filterMonth daily y mo ChannelType.DTC).map (fun m =>
          m.subCounters
            (sumq (filterMonth daily y mo ChannelType.DTC)
              (fun m => m.dtc_social_net))
            (sumq (filterMonth daily y mo ChannelType.DTC)
              (fun m => m.dtc_social_gmv))
            (sumq (filterMonth daily y mo ChannelType.DTC)
              (fun m => m.dtc_social_traffic))))).map some := by
  have hb : ¬((false : Bool) = true) := by simp
  have hff : ExclusionConfig.exclude_ff ⟨false, true⟩ = false := rfl
  have hsc : ExclusionConfig.exclude_social ⟨false, true⟩ = true := rfl
  simp only [CoreBusinessCalculator.aggregate_monthly_with_exclusion]
  rw [if_neg hd, if_neg hm]
  simp only [hff, hsc, hb, if_true, if_false, false_and, and_true, or_true,
    true_and, false_or, pure_bind]
  rw [if_neg hb]
  rw [if_neg hb, if_neg hb]

/-- C1: the two computation paths for `DTC_EXCL_FF` do not agree on the
§8 scenario.  The cross-source merge path derives a `DTC_EXCL_FF` row
with GMV 720000 (800000 − 80000) from the same underlying totals, but
the exclusion path never produces any aggregate: it raises `KeyError`
on the nonexistent `dtc_ff_net` column, even though the very same call
without the FF exclusion aggregates the daily data to GMV 800000. -/
theorem c1_exclusion_vs_merge_divergence :
    CoreBusinessCalculator.aggregate_monthly_with_exclusion c1Daily 2025 4
        ChannelType.DTC ⟨true, false⟩ = .error (.keyError "dtc_ff_net") ∧
    (∃ m, CoreBusinessCalculator.aggregate_monthly_with_exclusion c1Daily
        2025 4 ChannelType.DTC ⟨false, false⟩ = .ok (some m) ∧
      m.gmv = 800000 ∧ m.net = 720000) ∧
    (∃ r, mergeAndCalculate [c1DbDTC] (some c1Ff) =
        .ok [c1DbDTC.toMerged, r, c1Ff.toMerged] ∧
      r.channel = "DTC_EXCL_FF" ∧ r.gmv = some 720000 ∧
      r.net = some 648000 ∧
      findChannelRow [c1DbDTC.toMerged, r, c1Ff.toMerged] "DTC_EXCL_FF" =
        some r) := by
  refine ⟨rfl, ?_, ?_⟩
  · have hgmv : sumq c1Daily (fun m => m.gmv) = 800000 := by
      norm_num [sumq, c1Daily, c1DailyRec]
    have hnet : sumq c1Daily (fun m => m.net) = 720000 := by
      norm_num [sumq, c1Daily, c1DailyRec]
    have huv : sumq c1Daily (fun m => m.uv) = 8000 := by
      norm_num [sumq, c1Daily, c1DailyRec]
    have hbuy : sumq c1Daily (fun m => m.buyers) = 80 := by
      norm_num [sumq, c1Daily, c1DailyRec]
    have hpt : sumq c1Daily (fun m => m.paid_traffic) = 4000 := by
      norm_num [sumq, c1Daily, c1DailyRec]
    have hft : sumq c1Daily (fun m => m.free_traffic) = 4000 := by
      norm_num [sumq, c1Daily, c1DailyRec]
    have hord : sumq c1Daily (fun m => m.orders) = 80 := by
      norm_num [sumq, c1Daily, c1DailyRec]
    have hgu : sumq c1Daily (fun m => m.gmv_units) = 160 := by
      norm_num [sumq, c1Daily, c1DailyRec]
    have hca : sumq c1Daily (fun m => m.cancel_amount) = 0 := by
      norm_num [sumq, c1Daily, c1DailyRec]
    have hra : sumq c1Daily (fun m => m.return_amount) = 0 := by
      norm_num [sumq, c1Daily, c1DailyRec]
    have hco : targetMetricColumns.contains "orders" = true := by decide
    have hcg : targetMetricColumns.contains "gmv_units" = true := by decide
    have hcc : targetMetricColumns.contains "cancel_amount" = true := by
      decide
    have hcr : targetMetricColumns.contains "return_amount" = true := by
      decide
    have hcore : aggExclCore 2025 4 ChannelType.DTC c1Daily = .ok c1OkM := by
      simp only [aggExclCore, hgmv, hnet, huv, hbuy, hpt, hft, hord, hgu,
        hca, hra, hco, hcg, hcc, hcr, if_true]
      norm_num [pyInt, zTruthy, MetricCalculator.calculate_aov,
        MetricCalculator.calculate_atv, MetricCalculator.calculate_aur,
        MetricCalculator.calculate_cr, MetricCalculator.calculate_rrc,
        MetricCalculator.calculate_cancel_rate,
        MetricCalculator.calculate_return_rate,
        MetricCalculator.calculate_rrc_after_cancel, pyRound2,
        roundHalfEven, ratFloor, totalRefundIfPresent, mkMonthlyMetrics,
        MonthlyMetrics.validate, MonthlyMetrics.invalids, violation, c1OkM]
    have hfil : filterMonth c1Daily 2025 4 ChannelType.DTC = c1Daily := rfl
    have hstep := aggExcl_no_exclusion c1Daily 2025 4 ChannelType.DTC
      (by simp [c1Daily]) (by rw [hfil]; simp [c1Daily])
    refine ⟨c1OkM, ?_, by norm_num [c1OkM], by norm_num [c1OkM]⟩
    rw [hstep, hfil, hcore]
    rfl
  · refine ⟨c1ExclRow, rfl, rfl, ?_, ?_, rfl⟩
    · show some ((800000 : ℚ) - 80000) = some 720000
      norm_num
    · show some ((720000 : ℚ) - 72000) = some 648000
      norm_num

/-- C6: fiscal-YTD does not sum the fiscal months from the fiscal-year
start (April) through the target fiscal month.  Both daily records carry
fiscal year 2026; for the through-April query — April being the first
month of the fiscal year, so the claimed window is April alone, GMV
100 — `calculate_fiscal_ytd` returns GMV 600: its loop runs over fiscal
months 1..4, so it also collects the January-2026 aggregate (GMV 500), a
month that lies after April in fiscal order and outside the claimed
window. -/
theorem c6_fiscal_ytd_window_bug :
    FiscalYearAggregator.calculate_fiscal_ytd c6Daily 2026 ChannelType.DTC
        (some 4) = .ok (some c6Ytd) ∧
    FiscalYearAggregator.aggregate_fiscal_year_monthly c6Daily 2026 4
        ChannelType.DTC = .ok (some c6M4) ∧
    FiscalYearAggregator.aggregate_fiscal_year_monthly c6Daily 2026 1
        ChannelType.DTC = .ok (some c6M1) ∧
    c6Ytd.gmv = 600 ∧ c6M4.gmv = 100 ∧ c6M1.gmv = 500 ∧
    c6M1.year = 2026 ∧ c6M1.month = 1 ∧
    c6AprRec.fiscal_year = 2026 ∧ c6JanRec.fiscal_year = 2026 := by
  have hnpt : targetMetricColumns.contains "non_paid_traffic" = false := by
    decide
  have hc1 : fiscalAggCore 2026 1 ChannelType.DTC [c6JanRec] = .ok c6M1 := by
    norm_num [fiscalAggCore, sumq, c6JanRec, pyInt, hnpt, mkMonthlyMetrics,
      MonthlyMetrics.validate, MonthlyMetrics.invalids, violation, c6M1]
    simp
  have hc4 : fiscalAggCore 2025 4 ChannelType.DTC [c6AprRec] = .ok c6M4 := by
    norm_num [fiscalAggCore, sumq, c6AprRec, pyInt, hnpt, mkMonthlyMetrics,
      MonthlyMetrics.validate, MonthlyMetrics.invalids, violation, c6M4]
    simp
  have h1 : FiscalYearAggregator.aggregate_fiscal_year_monthly c6Daily 2026 1
      ChannelType.DTC = .ok (some c6M1) := by
    have hs := fiscal_monthly_nonempty c6Daily 2026 1 ChannelType.DTC
      (by simp [c6Daily]) (by decide)
    rw [hs]
    norm_num
    rw [show filterMonth c6Daily 2026 1 ChannelType.DTC = [c6JanRec] from rfl,
      hc1]
    rfl
  have h2 : FiscalYearAggregator.aggregate_fiscal_year_monthly c6Daily 2026 2
      ChannelType.DTC = .ok none :=
    fiscal_monthly_empty c6Daily 2026 2 ChannelType.DTC (by decide)
  have h3 : FiscalYearAggregator.aggregate_fiscal_year_monthly c6Daily 2026 3
      ChannelType.DTC = .ok none :=
    fiscal_monthly_empty c6Daily 2026 3 ChannelType.DTC (by decide)
  have h4 : FiscalYearAggregator.aggregate_fiscal_year_monthly c6Daily 2026 4
      ChannelType.DTC = .ok (some c6M4) := by
    have hs := fiscal_monthly_nonempty c6Daily 2026 4 ChannelType.DTC
      (by simp [c6Daily]) (by decide)
    rw [hs]
    norm_num
    rw [show filterMonth c6Daily 2025 4 ChannelType.DTC = [c6AprRec] from rfl,
      hc4]
    rfl
  have hy : FiscalYearAggregator.calculate_fiscal_ytd c6Daily 2026
      ChannelType.DTC (some 4) = .ok (some c6Ytd) := by
    simp only [FiscalYearAggregator.calculate_fiscal_ytd]
    rw [if_neg (show c6Daily ≠ [] by simp [c6Daily])]
    rw [show fmRange 4 = [1, 2, 3, 4] from by decide]
    simp only [List.foldlM, h1, h2, h3, h4, except_bind_ok]
    simp only [pure_bind, List.nil_append, List.singleton_append,
      List.cons_append, List.append_nil]
    rw [show ([c6M1, c6M4] : List MonthlyMetrics).getLast? = some c6M4 from
      rfl]
    norm_num [c6M1, c6M4, c6Ytd, mkMonthlyMetrics, MonthlyMetrics.validate,
      MonthlyMetrics.invalids, violation]
    simp
    rfl
  exact ⟨hy, h4, h1, rfl, rfl, rfl, rfl, rfl, by decide, by decide⟩

/-- C7 counterexample: merging with an absent supplementary (FF) source
does not leave `DTC_EXCL_FF` null or absent — `_merge_and_calculate`
substitutes `0` for the missing FF counters and derives a `DTC_EXCL_FF`
row anyway, equal to the plain DTC row's counters. -/
theorem c7_counterexample_excl_ff_derived :
    ∃ rows, mergeAndCalculate [c7Pfs, c7Dtc] none = .ok rows ∧
      hasChannelRow rows "DTC_EXCL_FF" = true ∧
      (∃ r ∈ rows, r.channel = "DTC_EXCL_FF" ∧ r.gmv = some 200 ∧
        r.net = some 150) := by
  refine ⟨[c7Dtc.toMerged, c7ExclRow c7Dtc, c7Pfs.toMerged,
    c7TotalRow c7Pfs c7Dtc], rfl, rfl, c7ExclRow c7Dtc, by simp, rfl,
    ?_, ?_⟩
  · show nsubScalar (some c7Dtc.gmv) 0 = some 200
    norm_num [nsubScalar, c7Dtc]
  · show nsubScalar (some c7Dtc.net) 0 = some 150
    norm_num [nsubScalar, c7Dtc]

/-- C7 (amended): merging a PFS and a DTC database row with an absent
supplementary source passes both source rows through unchanged and still
computes `TOTAL` from PFS + DTC; but `DTC_EXCL_FF` is not absent — it is
derived whenever a DTC row exists, with the FF counters taken as `0`, so
it repeats the DTC row's gmv, net and uv. -/
theorem c7_merge_empty_supplementary_amended (pfs dtc : DbRow)
    (hp : pfs.channel = "PFS") (hd : dtc.channel = "DTC") :
    ∃ rows, mergeAndCalculate [pfs, dtc] none = .ok rows ∧
      dtc.toMerged ∈ rows ∧ pfs.toMerged ∈ rows ∧
      (∃ r ∈ rows, r.channel = "DTC_EXCL_FF" ∧ r.gmv = some dtc.gmv ∧
        r.net = some dtc.net ∧ r.uv = some dtc.uv) ∧
      (∃ t ∈ rows, t.channel = "TOTAL" ∧
        t.gmv = some (pfs.gmv + dtc.gmv) ∧
        t.net = some (pfs.net + dtc.net)) := by
  have s1 : strLe "PFS" "DTC" = false := by decide
  have s2 : strLe "PFS" "DTC_EXCL_FF" = false := by decide
  have s3 : strLe "PFS" "TOTAL" = true := by decide
  have s4 : strLe "DTC" "DTC_EXCL_FF" = true := by decide
  have s5 : strLe "DTC_EXCL_FF" "TOTAL" = true := by decide
  have key : mergeAndCalculate [pfs, dtc] none =
      .ok (([pfs.toMerged, dtc.toMerged, c7ExclRow dtc,
        c7TotalRow pfs dtc]).insertionSort
          (fun a b => strLe a.channel b.channel)) := by
    simp [mergeAndCalculate, DbRow.toMerged, c7ExclRow, c7TotalRow,
      hasChannelRow, findChannelRow, hp, hd, List.find?, except_bind_ok,
      s1, s2, s3, s4, s5]
    rfl
  refine ⟨_, key, ?_, ?_, ⟨c7ExclRow dtc, ?_, rfl, ?_, ?_, ?_⟩,
    ⟨c7TotalRow pfs dtc, ?_, rfl, ?_, ?_⟩⟩
  · rw [List.mem_insertionSort]
    simp
  · rw [List.mem_insertionSort]
    simp
  · rw [List.mem_insertionSort]
    simp
  · simp [c7ExclRow, nsubScalar]
  · simp [c7ExclRow, nsubScalar]
  · simp [c7ExclRow, nsubScalar]
  · rw [List.mem_insertionSort]
    simp
  · simp [c7TotalRow, nadd]
  · simp [c7TotalRow, nadd]

/-- Witness for C7 (amended) at the concrete PFS/DTC fixture rows. -/
theorem c7_merge_empty_supplementary_amended_witness :
    ∃ rows, mergeAndCalculate [c7Pfs, c7Dtc] none = .ok rows ∧
      c7Dtc.toMerged ∈ rows ∧ c7Pfs.toMerged ∈ rows ∧
      (∃ r ∈ rows, r.channel = "DTC_EXCL_FF" ∧ r.gmv = some c7Dtc.gmv ∧
        r.net = some c7Dtc.net ∧ r.uv = some c7Dtc.uv) ∧
      (∃ t ∈ rows, t.channel = "TOTAL" ∧
        t.gmv = some (c7Pfs.gmv + c7Dtc.gmv) ∧
        t.net = some (c7Pfs.net + c7Dtc.net)) :=
  c7_merge_empty_supplementary_amended c7Pfs c7Dtc rfl rfl

/-- C8 counterexample: an input that already carries a DTC aggregate
(gmv 999) together with WBTQ and OFS does not keep its DTC entry — the
batch entry point recomputes DTC = WBTQ + OFS (gmv 30) and overwrites
the input aggregate. -/
theorem c8_counterexample_overwrites_dtc :
    ∃ f d, ChannelAggregator.calculate_channel_breakdown c8Input = .ok f ∧
      channelsOf c8Input ChannelType.DTC = some c8DtcIn ∧
      f ChannelType.DTC = some d ∧ d.gmv = 30 ∧ c8DtcIn.gmv = 999 ∧
      d ≠ c8DtcIn := by
  obtain ⟨d, t, hbd, hdc, hdg, hdn, htc, htg, htn⟩ :=
    breakdown_spec c8Input c8Wbtq c8Ofs c8Pfs rfl rfl rfl
      (by unfold MonthlyMetrics.Valid; decide)
      (by unfold MonthlyMetrics.Valid; decide)
      (by unfold MonthlyMetrics.Valid; decide) rfl rfl rfl rfl
  have hdg30 : d.gmv = 30 := by
    rw [hdg]
    norm_num [c8Wbtq, c8Ofs, fixtureMetric]
  refine ⟨_, d, hbd, rfl, ?_, hdg30, rfl, ?_⟩
  · rw [updateChannel_ne (by decide), updateChannel_self]
  · intro h
    rw [h] at hdg30
    norm_num [c8DtcIn, fixtureMetric] at hdg30

/-- C8 (amended): `calculate_channel_breakdown` leaves every channel
other than DTC and TOTAL unchanged; but whenever WBTQ and OFS are both
present (with matching periods) it recomputes DTC = WBTQ + OFS and
stores it under the DTC key even if the input already supplied a DTC
aggregate, and likewise recomputes TOTAL = PFS + DTC whenever PFS and a
DTC entry are present — the derivation is unconditional, not restricted
to missing channels. -/
theorem c8_breakdown_amended (ms : List MonthlyMetrics)
    (w o p : MonthlyMetrics)
    (hw : channelsOf ms ChannelType.WBTQ = some w)
    (ho : channelsOf ms ChannelType.OFS = some o)
    (hp : channelsOf ms ChannelType.PFS = some p)
    (hvw : w.Valid) (hvo : o.Valid) (hvp : p.Valid)
    (hy : w.year = o.year) (hm : w.month = o.month)
    (hpy : p.year = w.year) (hpm : p.month = w.month) :
    ∃ f d t, ChannelAggregator.calculate_channel_breakdown ms = .ok f ∧
      (∀ c, c ≠ ChannelType.DTC → c ≠ ChannelType.TOTAL →
        f c = channelsOf ms c) ∧
      f ChannelType.DTC = some d ∧ d.channel = ChannelType.DTC ∧
      d.gmv = w.gmv + o.gmv ∧ d.net = w.net + o.net ∧
      f ChannelType.TOTAL = some t ∧ t.channel = ChannelType.TOTAL ∧
      t.gmv = p.gmv + d.gmv ∧ t.net = p.net + d.net := by
  obtain ⟨d, t, hbd, hdc, hdg, hdn, htc, htg, htn⟩ :=
    breakdown_spec ms w o p hw ho hp hvw hvo hvp hy hm hpy hpm
  refine ⟨_, d, t, hbd, ?_, ?_, hdc, hdg, hdn, ?_, htc, htg, htn⟩
  · intro c hcd hct
    rw [updateChannel_ne hct, updateChannel_ne hcd]
  · rw [updateChannel_ne (by decide), updateChannel_self]
  · rw [updateChannel_self]

/-- Witness for C8 (amended) at the concrete four-channel input. -/
theorem c8_breakdown_amended_witness :
    ∃ f d t, ChannelAggregator.calculate_channel_breakdown c8Input =
        .ok f ∧
      (∀ c, c ≠ ChannelType.DTC → c ≠ ChannelType.TOTAL →
        f c = channelsOf c8Input c) ∧
      f ChannelType.DTC = some d ∧ d.channel = ChannelType.DTC ∧
      d.gmv = c8Wbtq.gmv + c8Ofs.gmv ∧ d.net = c8Wbtq.net + c8Ofs.net ∧
      f ChannelType.TOTAL = some t ∧ t.channel = ChannelType.TOTAL ∧
      t.gmv = c8Pfs.gmv + d.gmv ∧ t.net = c8Pfs.net + d.net :=
  c8_breakdown_amended c8Input c8Wbtq c8Ofs c8Pfs rfl rfl rfl
    (by unfold MonthlyMetrics.Valid; decide)
    (by unfold MonthlyMetrics.Valid; decide)
    (by unfold MonthlyMetrics.Valid; decide) rfl rfl rfl rfl

/-- C9 counterexample: when the social-contribution subtraction drives
the summed gmv to −100 and net to −50, the negative values do not
surface in a returned aggregate — the pydantic `ge=0` bound on `gmv`
rejects the construction with a `ValidationError`, so the aggregation
raises instead of returning. -/
theorem c9_counterexample_negative_rejected :
    CoreBusinessCalculator.aggregate_monthly_with_exclusion [c9NegRec]
        2025 4 ChannelType.DTC ⟨false, true⟩ =
      .error (.validationError "gmv") ∧
    sumq [c9NegRec.subCounters 150 200 80] (fun m => m.gmv) = -100 ∧
    sumq [c9NegRec.subCounters 150 200 80] (fun m => m.net) = -50 := by
  have hco : targetMetricColumns.contains "orders" = true := by decide
  have hcg : targetMetricColumns.contains "gmv_units" = true := by decide
  have hcc : targetMetricColumns.contains "cancel_amount" = true := by decide
  have hcr : targetMetricColumns.contains "return_amount" = true := by decide
  have hs1 : sumq [c9NegRec] (fun m => m.dtc_social_net) = 150 := by
    norm_num [sumq, c9NegRec]
  have hs2 : sumq [c9NegRec] (fun m => m.dtc_social_gmv) = 200 := by
    norm_num [sumq, c9NegRec]
  have hs3 : sumq [c9NegRec] (fun m => m.dtc_social_traffic) = 80 := by
    norm_num [sumq, c9NegRec]
  have hg : sumq [c9NegRec.subCounters 150 200 80] (fun m => m.gmv) =
      -100 := by
    norm_num [sumq, TargetMetric.subCounters, c9NegRec]
  have hn : sumq [c9NegRec.subCounters 150 200 80] (fun m => m.net) =
      -50 := by
    norm_num [sumq, TargetMetric.subCounters, c9NegRec]
  have hu : sumq [c9NegRec.subCounters 150 200 80] (fun m => m.uv) =
      -30 := by
    norm_num [sumq, TargetMetric.subCounters, c9NegRec]
  have hb : sumq [c9NegRec.subCounters 150 200 80] (fun m => m.buyers) =
      10 := by
    norm_num [sumq, TargetMetric.subCounters, c9NegRec]
  have hor : sumq [c9NegRec.subCounters 150 200 80] (fun m => m.orders) =
      5 := by
    norm_num [sumq, TargetMetric.subCounters, c9NegRec]
  have hgu : sumq [c9NegRec.subCounters 150 200 80]
      (fun m => m.gmv_units) = 0 := by
    norm_num [sumq, TargetMetric.subCounters, c9NegRec]
  have hpt : sumq [c9NegRec.subCounters 150 200 80]
      (fun m => m.paid_traffic) = 0 := by
    norm_num [sumq, TargetMetric.subCounters, c9NegRec]
  have hft : sumq [c9NegRec.subCounters 150 200 80]
      (fun m => m.free_traffic) = 0 := by
    norm_num [sumq, TargetMetric.subCounters, c9NegRec]
  have hcaa : sumq [c9NegRec.subCounters 150 200 80]
      (fun m => m.cancel_amount) = 0 := by
    norm_num [sumq, TargetMetric.subCounters, c9NegRec]
  have hraa : sumq [c9NegRec.subCounters 150 200 80]
      (fun m => m.return_amount) = 0 := by
    norm_num [sumq, TargetMetric.subCounters, c9NegRec]
  have hcore : aggExclCore 2025 4 ChannelType.DTC
      [c9NegRec.subCounters 150 200 80] =
      .error (.validationError "gmv") := by
    simp only [aggExclCore, hg, hn, hu, hb, hor, hgu, hpt, hft, hcaa, hraa,
      hco, hcg, hcc, hcr, if_true]
    norm_num [pyInt, zTruthy, MetricCalculator.calculate_aov,
      MetricCalculator.calculate_atv, MetricCalculator.calculate_aur,
      MetricCalculator.calculate_cr, MetricCalculator.calculate_rrc,
      MetricCalculator.calculate_cancel_rate,
      MetricCalculator.calculate_return_rate,
      MetricCalculator.calculate_rrc_after_cancel, pyRound2,
      roundHalfEven, ratFloor, totalRefundIfPresent, mkMonthlyMetrics,
      MonthlyMetrics.validate, MonthlyMetrics.invalids, violation]
  refine ⟨?_, hg, hn⟩
  rw [aggExcl_sc_only [c9NegRec] 2025 4 (by simp) (by decide)]
  rw [show filterMonth [c9NegRec] 2025 4 ChannelType.DTC = [c9NegRec]
    from rfl]
  rw [hs1, hs2, hs3]
  simp only [List.map_cons, List.map_nil]
  rw [hcore]
  rfl

/-- C9 (amended): in the SC-exclusion aggregation over DTC the visitor
count of any returned aggregate is floored at zero, and — contrary to
the claim that negative revenue or GMV surfaces — every aggregate the
function actually returns has nonnegative gmv and net as well: the
pydantic bounds reject a construction with negative sums, so negative
values can never appear in a returned aggregate. -/
theorem c9_exclusion_clamping_amended (daily : List TargetMetric)
    (y mo : ℤ) (mm : MonthlyMetrics)
    (h : CoreBusinessCalculator.aggregate_monthly_with_exclusion daily y mo
        ChannelType.DTC ⟨false, true⟩ = .ok (some mm)) :
    0 ≤ mm.uv ∧ 0 ≤ mm.gmv ∧ 0 ≤ mm.net := by
  by_cases hd : daily = []
  · subst hd
    exact absurd h
      (by simp [CoreBusinessCalculator.aggregate_monthly_with_exclusion])
  · by_cases hm : filterMonth daily y mo ChannelType.DTC = []
    · simp only [CoreBusinessCalculator.aggregate_monthly_with_exclusion]
        at h
      rw [if_neg hd, if_pos hm] at h
      exact absurd h (by simp)
    · rw [aggExcl_sc_only daily y mo hd hm] at h
      obtain ⟨m0, he, hob⟩ := except_map_ok_inv h
      obtain rfl : m0 = mm := by simpa using hob
      simp only [aggExclCore, mkMonthlyMetrics] at he
      obtain ⟨heqm, hinv⟩ := MonthlyMetrics.validate_ok_inv he
      subst heqm
      exact ⟨pyInt_max_nonneg _, invalids_nil_gmv hinv,
        invalids_nil_net hinv⟩

/-- Witness for C9 (amended): on `c9FloorRec` the subtracted visitor sum
is −30 but the returned aggregate carries uv = 0 (the floor), while gmv
and net carry the positive unclamped sums 800 and 850; the amended
nonnegativity conclusions hold at this concrete return. -/
theorem c9_exclusion_clamping_amended_witness :
    ∃ mm, CoreBusinessCalculator.aggregate_monthly_with_exclusion
        [c9FloorRec] 2025 4 ChannelType.DTC ⟨false, true⟩ =
        .ok (some mm) ∧
      mm.uv = 0 ∧ mm.gmv = 800 ∧ mm.net = 850 ∧
      sumq [c9FloorRec.subCounters 150 200 80] (fun m => m.uv) = -30 ∧
      0 ≤ mm.uv ∧ 0 ≤ mm.gmv ∧ 0 ≤ mm.net := by
  have hco : targetMetricColumns.contains "orders" = true := by decide
  have hcg : targetMetricColumns.contains "gmv_units" = true := by decide
  have hcc : targetMetricColumns.contains "cancel_amount" = true := by decide
  have hcr : targetMetricColumns.contains "return_amount" = true := by decide
  have hs1 : sumq [c9FloorRec] (fun m => m.dtc_social_net) = 150 := by
    norm_num [sumq, c9FloorRec]
  have hs2 : sumq [c9FloorRec] (fun m => m.dtc_social_gmv) = 200 := by
    norm_num [sumq, c9FloorRec]
  have hs3 : sumq [c9FloorRec] (fun m => m.dtc_social_traffic) = 80 := by
    norm_num [sumq, c9FloorRec]
  have hg : sumq [c9FloorRec.subCounters 150 200 80] (fun m => m.gmv) =
      800 := by
    norm_num [sumq, TargetMetric.subCounters, c9FloorRec]
  have hn : sumq [c9FloorRec.subCounters 150 200 80] (fun m => m.net) =
      850 := by
    norm_num [sumq, TargetMetric.subCounters, c9FloorRec]
  have hu : sumq [c9FloorRec.subCounters 150 200 80] (fun m => m.uv) =
      -30 := by
    norm_num [sumq, TargetMetric.subCounters, c9FloorRec]
  have hb : sumq [c9FloorRec.subCounters 150 200 80] (fun m => m.buyers) =
      10 := by
    norm_num [sumq, TargetMetric.subCounters, c9FloorRec]
  have hor : sumq [c9FloorRec.subCounters 150 200 80] (fun m => m.orders) =
      5 := by
    norm_num [sumq, TargetMetric.subCounters, c9FloorRec]
  have hgu : sumq [c9FloorRec.subCounters 150 200 80]
      (fun m => m.gmv_units) = 0 := by
    norm_num [sumq, TargetMetric.subCounters, c9FloorRec]
  have hpt : sumq [c9FloorRec.subCounters 150 200 80]
      (fun m => m.paid_traffic) = 0 := by
    norm_num [sumq, TargetMetric.subCounters, c9FloorRec]
  have hft : sumq [c9FloorRec.subCounters 150 200 80]
      (fun m => m.free_traffic) = 0 := by
    norm_num [sumq, TargetMetric.subCounters, c9FloorRec]
  have hcaa : sumq [c9FloorRec.subCounters 150 200 80]
      (fun m => m.cancel_amount) = 0 := by
    norm_num [sumq, TargetMetric.subCounters, c9FloorRec]
  have hraa : sumq [c9FloorRec.subCounters 150 200 80]
      (fun m => m.return_amount) = 0 := by
    norm_num [sumq, TargetMetric.subCounters, c9FloorRec]
  have hcore : aggExclCore 2025 4 ChannelType.DTC
      [c9FloorRec.subCounters 150 200 80] = .ok c9FloorM := by
    simp only [aggExclCore, hg, hn, hu, hb, hor, hgu, hpt, hft, hcaa, hraa,
      hco, hcg, hcc, hcr, if_true]
    norm_num [pyInt, zTruthy, MetricCalculator.calculate_aov,
      MetricCalculator.calculate_atv, MetricCalculator.calculate_aur,
      MetricCalculator.calculate_cr, MetricCalculator.calculate_rrc,
      MetricCalculator.calculate_cancel_rate,
      MetricCalculator.calculate_return_rate,
      MetricCalculator.calculate_rrc_after_cancel, pyRound2,
      roundHalfEven, ratFloor, totalRefundIfPresent, mkMonthlyMetrics,
      MonthlyMetrics.validate, MonthlyMetrics.invalids, violation,
      c9FloorM]
    simp
  have heval : CoreBusinessCalculator.aggregate_monthly_with_exclusion
      [c9FloorRec] 2025 4 ChannelType.DTC ⟨false, true⟩ =
      .ok (some c9FloorM) := by
    rw [aggExcl_sc_only [c9FloorRec] 2025 4 (by simp) (by decide)]
    rw [show filterMonth [c9FloorRec] 2025 4 ChannelType.DTC = [c9FloorRec]
      from rfl]
    rw [hs1, hs2, hs3]
    simp only [List.map_cons, List.map_nil]
    rw [hcore]
    rfl
  obtain ⟨h1, h2, h3⟩ := c9_exclusion_clamping_amended [c9FloorRec] 2025 4
    c9FloorM heval
  exact ⟨c9FloorM, heval, rfl, rfl, rfl, hu, h1, h2, h3⟩

